import Mathlib

/-!
# MicroCeph configuration writer (`microceph/ceph/configwriter.go`)

A verification development for the three configuration templates of
MicroCeph (`ceph.conf`, the keyring, `radosgw.conf`) and for
`Config.WriteConfig`, which renders one of them into a file.

The Go file relies on four standard-library packages.  The slice of each
that the file exercises is embedded here as executable definitions:

* `text/template`: lexing and parsing of the template texts, the syntax tree
  of a template, and its execution against a `map[string]any` (field lookup,
  `if`, the builtins `and`, `or`, `not`, `ne`, printing with `fmt.Fprint`,
  the error of a failed execution);
* `fmt`: `Errorf` with the verbs `%s` and `%w`, and the errors it wraps;
* `path/filepath`: `Join`, `Clean` and `Dir`;
* `os`: `OpenFile` with `O_CREATE|O_TRUNC|O_RDWR` over an explicit file
  system state, and writing through the open file.

The error `eq` and `ne` return for two values of incompatible kinds has a
text that changed between releases of Go; it is a parameter (`GoRelease`) of
everything that formats it, and the theorems hold for each of its values.

The definitions come first, the theorems after them.
-/

namespace MicroCeph

/-! ## Values and data bags -/

/-- The dynamic values a data bag (`map[string]any`) holds, as the template
engine sees them through `reflect`: `nil` is the invalid `reflect.Value`
(a missing key, or a key holding a nil interface), `int` stands for every
signed integer kind and `uint` for every unsigned one. -/
inductive Value
  | nil
  | bool (b : Bool)
  | int (i : Int)
  | uint (n : Nat)
  | str (s : String)
deriving DecidableEq, Repr

/-- The data bag `map[string]any` handed to `WriteConfig`. -/
abbrev Bag := String → Option Value

/-- The empty map. -/
def Bag.empty : Bag := fun _ => none

/-- The map with `k` set to `v`. -/
def Bag.set (d : Bag) (k : String) (v : Value) : Bag :=
  fun k' => if k' = k then some v else d k'

/-- The map with `k` deleted. -/
def Bag.erase (d : Bag) (k : String) : Bag :=
  fun k' => if k' = k then none else d k'

namespace template

/-! ## `text/template`: syntax -/

/-- The builtin functions the templates call (`text/template/funcs.go`). -/
inductive Builtin
  | and
  | or
  | not
  | ne
deriving DecidableEq, Repr

/-- The name under which a builtin is registered. -/
def Builtin.name : Builtin → String
  | .and => "and"
  | .or => "or"
  | .not => "not"
  | .ne => "ne"

/-- The number of arguments a builtin wants (at least that many for the
variadic `and` and `or`). -/
def Builtin.arity : Builtin → Nat
  | .and => 1
  | .or => 1
  | .not => 1
  | .ne => 2

/-- An argument of a command (`parse.Node` restricted to the node kinds the
templates use): a field of dot `.name`, an integer constant, a function
identifier, or a parenthesised pipeline of one command.  Each records `pos`,
its byte offset in the template text (for a parenthesised pipeline that of
its opening parenthesis), which error messages report. -/
inductive Arg
  | field (pos : Nat) (name : String)
  | number (pos : Nat) (i : Int)
  | ident (pos : Nat) (fn : Builtin)
  | pipe (pos : Nat) (cmd : List Arg)
deriving Repr

/-- A top-level node of a template: literal text, an action `{{pipeline}}`,
or `{{if pipeline}} list {{end}}`. -/
inductive Node
  | text (s : String)
  | action (cmd : List Arg)
  | ifNode (cmd : List Arg) (list : List Node)
deriving Repr

/-- The separator before the rest of a command: a space, unless nothing
follows. -/
def argSep (rest : List Arg) : String :=
  if rest.isEmpty then "" else " "

mutual
/-- Go `Node.String` on an argument: the source form of the node. -/
def Arg.String : Arg → String
  | .field _ name => "." ++ name
  | .number _ i => toString i
  | .ident _ fn => fn.name
  | .pipe _ cmd => cmdString cmd
/-- Go `CommandNode.String`: the arguments separated by one space, a
parenthesised pipeline inside its parentheses. -/
def cmdString : List Arg → String
  | [] => ""
  | .pipe _ cmd :: rest => "(" ++ cmdString cmd ++ ")" ++ argSep rest ++ cmdString rest
  | a :: rest => a.String ++ argSep rest ++ cmdString rest
end

/-! ## `text/template`: lexing and parsing

The part of `text/template/parse` the three templates need: literal text,
`{{` and `}}` without trim markers, fields of dot, decimal constants, the
keywords `if` and `end`, the builtin identifiers and parentheses.  Any other
input is rejected, so a tree is produced only for text of this fragment. -/

/-- The kinds of lexical items (`itemType` in `lex.go`). -/
inductive ItemType
  | itemText
  | itemLeftDelim
  | itemRightDelim
  | itemSpace
  | itemField
  | itemIdentifier
  | itemNumber
  | itemLeftParen
  | itemRightParen
  | itemIf
  | itemEnd
  | itemError
deriving DecidableEq, Repr

/-- A lexical item: its kind, its offset in the input and its text. -/
structure Item where
  typ : ItemType
  pos : Nat
  val : List Char
deriving DecidableEq, Repr

/-- Go `isSpace` together with the line ends an action may contain. -/
def isSpace (c : Char) : Bool :=
  c == ' ' || c == '\t' || c == '\r' || c == '\n'

/-- Go `isAlphaNumeric`, on ASCII. -/
def isAlphaNumeric (c : Char) : Bool :=
  c == '_' || c.isAlpha || c.isDigit

/-- The runs of characters that make one item inside an action. -/
inductive RunKind
  | space
  | field
  | word
  | number
deriving DecidableEq, Repr

/-- The state of the lexer between two characters. -/
inductive LexState
  | text (start : Nat) (acc : List Char)
  | textBrace (start : Nat) (acc : List Char)
  | action
  | run (kind : RunKind) (start : Nat) (acc : List Char)
  | closing
  | failed
deriving DecidableEq, Repr

/-- The text item for the pending literal text; none when it is empty. -/
def emitText (start : Nat) (acc : List Char) : List Item :=
  if acc.isEmpty then [] else [⟨.itemText, start, acc.reverse⟩]

/-- The item for a finished run (`acc` holds it reversed): spaces, a field
`.name` with a name that does not start with a digit, a number without a
leading zero, or a word, which is the keyword `if` or `end` or else an
identifier. -/
def emitRun (kind : RunKind) (start : Nat) (acc : List Char) : Item :=
  let val := acc.reverse
  match kind with
  | .space => ⟨.itemSpace, start, val⟩
  | .field =>
    match val with
    | _ :: c :: _ => if c.isDigit then ⟨.itemError, start, val⟩ else ⟨.itemField, start, val⟩
    | _ => ⟨.itemError, start, val⟩
  | .number =>
    match val with
    | [_] => ⟨.itemNumber, start, val⟩
    | c :: _ => if c == '0' then ⟨.itemError, start, val⟩ else ⟨.itemNumber, start, val⟩
    | [] => ⟨.itemError, start, val⟩
  | .word =>
    if val == "if".data then ⟨.itemIf, start, val⟩
    else if val == "end".data then ⟨.itemEnd, start, val⟩
    else ⟨.itemIdentifier, start, val⟩

/-- Whether `c` continues a run of the given kind. -/
def continues (kind : RunKind) (c : Char) : Bool :=
  match kind with
  | .space => isSpace c
  | .field => isAlphaNumeric c
  | .word => isAlphaNumeric c
  | .number => c.isDigit

/-- Go `lexInsideAction` at a character that starts an item. -/
def lexStart (pos : Nat) (c : Char) : List Item × LexState :=
  if c == '\x7d' then ([], .closing)
  else if isSpace c then ([], .run .space pos [c])
  else if c == '.' then ([], .run .field pos [c])
  else if c.isDigit then ([], .run .number pos [c])
  else if isAlphaNumeric c then ([], .run .word pos [c])
  else if c == '(' then ([⟨.itemLeftParen, pos, [c]⟩], .action)
  else if c == ')' then ([⟨.itemRightParen, pos, [c]⟩], .action)
  else ([⟨.itemError, pos, [c]⟩], .failed)

/-- Go `atTerminator`, for the characters of this fragment: what may follow
a field, a word or a number. -/
def isTerminator (c : Char) : Bool :=
  isSpace c || c == '(' || c == ')' || c == '\x7d'

/-- One step of the lexer: the items finished by reading `c` at offset
`pos`, and the next state. -/
def lexStep (st : LexState) (pos : Nat) (c : Char) : List Item × LexState :=
  match st with
  | .text start acc =>
    if c == '\x7b' then ([], .textBrace start acc) else ([], .text start (c :: acc))
  | .textBrace start acc =>
    if c == '\x7b' then (emitText start acc ++ [⟨.itemLeftDelim, pos - 1, ['\x7b', '\x7b']⟩], .action)
    else ([], .text start (c :: '\x7b' :: acc))
  | .action => lexStart pos c
  | .run kind start acc =>
    if continues kind c then ([], .run kind start (c :: acc))
    else if kind == .space || isTerminator c then
      let (items, st') := lexStart pos c
      (emitRun kind start acc :: items, st')
    else ([⟨.itemError, pos, [c]⟩], .failed)
  | .closing =>
    if c == '\x7d' then ([⟨.itemRightDelim, pos - 1, ['\x7d', '\x7d']⟩], .text (pos + 1) [])
    else ([⟨.itemError, pos, [c]⟩], .failed)
  | .failed => ([], .failed)

/-- The lexer: the items of the input from offset `pos` on. -/
def lexFrom : LexState → Nat → List Char → List Item
  | .text start acc, _, [] => emitText start acc
  | .textBrace start acc, _, [] => emitText start ('\x7b' :: acc)
  | _, pos, [] => [⟨.itemError, pos, "unclosed action".data⟩]
  | st, pos, c :: rest =>
    let (items, st') := lexStep st pos c
    items ++ lexFrom st' (pos + 1) rest

/-- Go `lex`: the items of a template text. -/
def lex (input : String) : List Item :=
  lexFrom (.text 0 []) 0 input.data

/-- The builtin an identifier names (`hasFunction` in the parser). -/
def findFunction (name : List Char) : Option Builtin :=
  if name == "and".data then some .and
  else if name == "or".data then some .or
  else if name == "not".data then some .not
  else if name == "ne".data then some .ne
  else none

/-- The value of a decimal constant. -/
def numberValue (digits : List Char) : Int :=
  Int.ofNat (digits.foldl (fun n c => 10 * n + (c.toNat - '0'.toNat)) 0)

/-- Go `nextNonSpace`/`peekNonSpace`: the items without a leading space
item. -/
def skipSpace : List Item → List Item
  | ⟨.itemSpace, _, _⟩ :: rest => rest
  | items => items

/-- What must follow an operand (the `switch` at the end of the loop of Go
`command`): a space, after which the command goes on, or the delimiter or
parenthesis that ends the command, which is left in place. -/
inductive AfterOperand
  | more (rest : List Item)
  | done (rest : List Item)
  | unexpected

/-- Classifies the items after an operand. -/
def afterOperand : List Item → AfterOperand
  | ⟨.itemSpace, _, _⟩ :: rest => .more rest
  | ⟨.itemRightDelim, pos, val⟩ :: rest => .done (⟨.itemRightDelim, pos, val⟩ :: rest)
  | ⟨.itemRightParen, pos, val⟩ :: rest => .done (⟨.itemRightParen, pos, val⟩ :: rest)
  | _ => .unexpected

mutual
/-- Go `command` (with `operand` and `term`): the operands of one command,
up to the delimiter or parenthesis that ends it. -/
def parseCommand : Nat → List Item → Option (List Arg × List Item)
  | 0, _ => none
  | fuel + 1, items =>
    match skipSpace items with
    | ⟨.itemField, pos, val⟩ :: rest =>
      parseMore fuel (.field pos (String.mk (val.drop 1))) rest
    | ⟨.itemNumber, pos, val⟩ :: rest =>
      parseMore fuel (.number pos (numberValue val)) rest
    | ⟨.itemIdentifier, pos, val⟩ :: rest =>
      match findFunction val with
      | some fn => parseMore fuel (.ident pos fn) rest
      | none => none
    | ⟨.itemLeftParen, pos, _⟩ :: rest =>
      match parsePipeline fuel .itemRightParen rest with
      | some (cmd, rest') => parseMore fuel (.pipe pos cmd) rest'
      | none => none
    | ⟨.itemRightDelim, pos, val⟩ :: rest => some ([], ⟨.itemRightDelim, pos, val⟩ :: rest)
    | ⟨.itemRightParen, pos, val⟩ :: rest => some ([], ⟨.itemRightParen, pos, val⟩ :: rest)
    | _ => none
/-- The rest of a command after the operand `arg`. -/
def parseMore : Nat → Arg → List Item → Option (List Arg × List Item)
  | 0, _, _ => none
  | fuel + 1, arg, items =>
    match afterOperand items with
    | .more rest =>
      match parseCommand fuel rest with
      | some (args, rest') => some (arg :: args, rest')
      | none => none
    | .done rest => some ([arg], rest)
    | .unexpected => none
/-- Go `pipeline` for a pipeline of one command that must end with an item
of kind `close`, which is consumed: the command and the items left.  An
empty command is an error. -/
def parsePipeline : Nat → ItemType → List Item → Option (List Arg × List Item)
  | 0, _, _ => none
  | fuel + 1, close, items =>
    match parseCommand fuel items with
    | some (arg :: args, last :: rest') =>
      if last.typ == close then some (arg :: args, rest') else none
    | _ => none
end

/-- Go `itemList`/`textOrAction`: the nodes up to the end of the input for
the top-level list, up to the matching `{{end}}` for the list of an `if`
(`nested`).  Returns the nodes and the items left. -/
def parseList : Nat → Bool → List Item → Option (List Node × List Item)
  | 0, _, _ => none
  | _ + 1, nested, [] => if nested then none else some ([], [])
  | fuel + 1, nested, ⟨.itemText, _, val⟩ :: rest =>
    match parseList fuel nested rest with
    | some (nodes, rest') => some (.text (String.mk val) :: nodes, rest')
    | none => none
  | fuel + 1, nested, ⟨.itemLeftDelim, _, _⟩ :: rest =>
    match skipSpace rest with
    | ⟨.itemIf, _, _⟩ :: rest1 =>
      match parsePipeline fuel .itemRightDelim rest1 with
      | some (cmd, rest2) =>
        match parseList fuel true rest2 with
        | some (list, rest3) =>
          match parseList fuel nested rest3 with
          | some (nodes, rest4) => some (.ifNode cmd list :: nodes, rest4)
          | none => none
        | none => none
      | none => none
    | ⟨.itemEnd, _, _⟩ :: rest1 =>
      match skipSpace rest1 with
      | ⟨.itemRightDelim, _, _⟩ :: rest2 => if nested then some ([], rest2) else none
      | _ => none
    | _ =>
      match parsePipeline fuel .itemRightDelim rest with
      | some (cmd, rest1) =>
        match parseList fuel nested rest1 with
        | some (nodes, rest2) => some (.action cmd :: nodes, rest2)
        | none => none
      | none => none
  | _ + 1, _, _ => none

end template

/-- A parsed template, `*template.Template`: its name, the text it was
parsed from and its node list. -/
structure Template where
  name : String
  text : String
  root : List template.Node
deriving Repr

namespace template

/-! ## `text/template`: execution -/

/-- Go `isTrue`: the truth value `if`, `and`, `or` and `not` give a value.
The invalid value is false, a boolean is itself, a string is true when it is
not empty and a number when it is not zero. -/
def truth : Value → Bool
  | .nil => false
  | .bool b => b
  | .int i => i != 0
  | .uint n => n != 0
  | .str s => s != ""

/-- The causes of a failed execution; a failed comparison records the
function and the two values it was given. -/
inductive ExecCause
  | badComparison (fn : Builtin) (arg1 arg2 : Value)
  | wrongArgCount (fn : Builtin) (got : Nat)
  | notAFunction (arg : String)
  | fieldHasArgs (name : String)
  | emptyCommand
deriving DecidableEq, Repr

/-- A failed execution, Go `ExecError`: the cause, and the node the engine
was at (`state.at`), by its offset and its source form. -/
structure ExecError where
  pos : Nat
  context : String
  cause : ExecCause
deriving DecidableEq, Repr

/-- Errors of the comparison functions: `errBadComparison`, for the two
values that cannot be compared. -/
inductive CompareError
  | errBadComparison (arg1 arg2 : Value)
deriving DecidableEq, Repr

/-- Go `eq` on two arguments: values of the same basic kind are compared,
a signed and an unsigned integer are compared by value, the invalid value
is comparable with everything and equal to itself only, and two valid
values of different kinds are `errBadComparison`. -/
def eq (arg1 arg2 : Value) : Except CompareError Bool :=
  match arg1, arg2 with
  | .bool a, .bool b => .ok (a == b)
  | .int a, .int b => .ok (a == b)
  | .uint a, .uint b => .ok (a == b)
  | .str a, .str b => .ok (a == b)
  | .int a, .uint b => .ok (decide (0 ≤ a) && a.toNat == b)
  | .uint a, .int b => .ok (decide (0 ≤ b) && a == b.toNat)
  | .nil, .nil => .ok true
  | .nil, _ => .ok false
  | _, .nil => .ok false
  | a, b => .error (.errBadComparison a b)

/-- Go `ne`: the inverse of `eq`, with the same error. -/
def ne (arg1 arg2 : Value) : Except CompareError Bool :=
  match eq arg1 arg2 with
  | .ok equal => .ok (!equal)
  | .error err => .error err

/-- Go `evalField` on a map receiver with the default `missingkey` option:
the entry under the key, and the invalid value when there is none. -/
def evalField (dot : Bag) (fieldName : String) : Value :=
  match dot fieldName with
  | some v => v
  | none => .nil

mutual
/-- Go `evalArg`: the value of one argument of a call.  A bare function
identifier is a call without arguments, which every builtin here rejects. -/
def evalArg (dot : Bag) : Arg → Except ExecError Value
  | .field _ name => .ok (evalField dot name)
  | .number _ i => .ok (.int i)
  | .ident pos fn => .error ⟨pos, fn.name, .wrongArgCount fn 0⟩
  | .pipe _ cmd => evalCommand dot cmd
/-- Go `evalCommand`: a command is a field, a constant, a parenthesised
pipeline, or a function identifier followed by its arguments; only a
function takes arguments.  (The parser builds no empty command.) -/
def evalCommand (dot : Bag) : List Arg → Except ExecError Value
  | [] => .error ⟨0, "", .emptyCommand⟩
  | .field pos name :: rest =>
    if rest.isEmpty then .ok (evalField dot name)
    else .error ⟨pos, "." ++ name, .fieldHasArgs name⟩
  | .number pos i :: rest =>
    if rest.isEmpty then .ok (.int i)
    else .error ⟨pos, toString i, .notAFunction (toString i)⟩
  | .pipe pos cmd :: rest =>
    if rest.isEmpty then evalCommand dot cmd
    else .error ⟨pos, cmdString (.pipe pos cmd :: rest), .notAFunction (cmdString cmd)⟩
  | .ident pos fn :: args => evalCall dot pos fn args
/-- Go `evalCall` for the builtins, `pos` being the offset of the function
identifier.  The number of arguments is checked first.  `and` and `or`
evaluate their arguments from the left and stop at the first one that
decides the result; `not` and `ne` evaluate every argument and apply the
function. -/
def evalCall (dot : Bag) (pos : Nat) (fn : Builtin) : List Arg → Except ExecError Value
  | [] => .error ⟨pos, fn.name, .wrongArgCount fn 0⟩
  | a :: args =>
    match fn with
    | .and =>
      match evalArg dot a with
      | .ok v => if truth v == false then .ok v else evalAndOr dot false v args
      | .error e => .error e
    | .or =>
      match evalArg dot a with
      | .ok v => if truth v == true then .ok v else evalAndOr dot true v args
      | .error e => .error e
    | .not =>
      match args with
      | [] =>
        match evalArg dot a with
        | .ok v => .ok (.bool (!truth v))
        | .error e => .error e
      | _ :: more => .error ⟨pos, "not", .wrongArgCount .not (more.length + 2)⟩
    | .ne =>
      match args with
      | [b] =>
        match evalArg dot a with
        | .ok v =>
          match evalArg dot b with
          | .ok w =>
            match ne v w with
            | .ok r => .ok (.bool r)
            | .error (.errBadComparison x y) =>
              .error ⟨pos, cmdString [.ident pos .ne, a, b], .badComparison .ne x y⟩
          | .error e => .error e
        | .error e => .error e
      | _ => .error ⟨pos, "ne", .wrongArgCount .ne (args.length + 1)⟩
/-- The short-circuit loop of `evalCall` for `and` (`isOr = false`) and `or`
(`isOr = true`) after the first argument, `v` being the value of the
argument before: the first argument whose truth equals `isOr` is the result,
else the last argument is. -/
def evalAndOr (dot : Bag) (isOr : Bool) (v : Value) : List Arg → Except ExecError Value
  | [] => .ok v
  | a :: rest =>
    match evalArg dot a with
    | .ok v' => if truth v' == isOr then .ok v' else evalAndOr dot isOr v' rest
    | .error e => .error e
end

/-- Go `printValue`: what `fmt.Fprint` writes for the value of an action;
the invalid value prints as `<no value>`. -/
def printValue : Value → String
  | .nil => "<no value>"
  | .bool true => "true"
  | .bool false => "false"
  | .int i => toString i
  | .uint n => toString n
  | .str s => s

/-- The state of an execution: the chunks handed to the writer so far, one
per `Write` call and in order, and the error that stopped it, if any. -/
structure State where
  wr : List String
  err : Option ExecError
deriving DecidableEq, Repr

mutual
/-- Go `walk`: text is written as it is, an action writes the value of its
pipeline, an `if` walks its list when the value of its pipeline is true.
Whatever was written before an error stays written. -/
def walk (dot : Bag) (wr : List String) : Node → State
  | .text s => ⟨wr ++ [s], none⟩
  | .action cmd =>
    match evalCommand dot cmd with
    | .ok val => ⟨wr ++ [printValue val], none⟩
    | .error e => ⟨wr, some e⟩
  | .ifNode cmd list =>
    match evalCommand dot cmd with
    | .ok val => if truth val then walkList dot wr list else ⟨wr, none⟩
    | .error e => ⟨wr, some e⟩
/-- Go `walk` on a `ListNode`: the nodes in order, up to the first error. -/
def walkList (dot : Bag) (wr : List String) : List Node → State
  | [] => ⟨wr, none⟩
  | node :: rest =>
    match walk dot wr node with
    | ⟨wr', none⟩ => walkList dot wr' rest
    | ⟨wr', some e⟩ => ⟨wr', some e⟩
end

end template

/-- Go `template.New`: an empty template with the given name. -/
def template.New (name : String) : Template :=
  ⟨name, "", []⟩

/-- Go `Template.Parse`: the template with the tree of `text`, or nothing
when `text` does not parse. -/
def Template.Parse (t : Template) (text : String) : Option Template :=
  let items := template.lex text
  match template.parseList (2 * items.length + 2) false items with
  | some (root, []) => some ⟨t.name, text, root⟩
  | _ => none

/-- Go `template.Must`: the parsed template.  Go panics when parsing failed;
here the empty template stands for that case, which none of the three
templates of this file reaches. -/
def template.Must (t : Option Template) : Template :=
  match t with
  | some t => t
  | none => template.New ""

/-- Go `Template.Execute`: the walk of the root list with the data bag as
dot, starting with nothing written. -/
def Template.Execute (t : Template) (data : Bag) : template.State :=
  template.walkList data [] t.root

/-- Go `Tree.ErrorContext`: the location `name:line:column` of the node at
offset `pos` of the template text. -/
def Template.ErrorContext (t : Template) (pos : Nat) : String :=
  let text := t.text.data.take pos
  let lineNum := 1 + text.count '\n'
  let byteNum := (text.reverse.takeWhile (fun c => c != '\n')).length
  t.name ++ ":" ++ toString lineNum ++ ":" ++ toString byteNum

/-! ## Go errors -/

/-- The error numbers `open(2)` fails with here. -/
inductive Errno
  | ENOENT
  | EACCES
  | EISDIR
  | ENOTDIR
deriving DecidableEq, Repr

/-- Go `Errno.Error`. -/
def Errno.Error : Errno → String
  | .ENOENT => "no such file or directory"
  | .EACCES => "permission denied"
  | .EISDIR => "is a directory"
  | .ENOTDIR => "not a directory"

/-- The Go error values this file meets: a `syscall.Errno`, an
`errors.New`/`fmt.Errorf` error without a wrapped cause, an `*fs.PathError`,
a `template.ExecError` and the error `fmt.Errorf` builds for a format with
`%w`. -/
inductive GoError
  | errno (e : Errno)
  | errorString (s : String)
  | pathError (op path : String) (err : Errno)
  | execError (name : String) (err : GoError)
  | wrapError (msg : String) (err : GoError)
deriving DecidableEq, Repr

/-- The method `Error()` of an error. -/
def GoError.Error : GoError → String
  | .errno e => e.Error
  | .errorString s => s
  | .pathError op path err => op ++ " " ++ path ++ ": " ++ err.Error
  | .execError _ err => err.Error
  | .wrapError msg _ => msg

/-- The method `Unwrap()` of an error: the cause it wraps, if any. -/
def GoError.Unwrap : GoError → Option GoError
  | .errno _ => none
  | .errorString _ => none
  | .pathError _ _ err => some (.errno err)
  | .execError _ err => some err
  | .wrapError _ err => some err

namespace fmt

/-- Go `fmt.Sprintf` for a format whose verbs are `%s`, given the string
`s`, and `%w`, given the error `err`: every other character is copied. -/
def format (s : String) (err : GoError) : List Char → List Char
  | '%' :: 's' :: rest => s.data ++ format s err rest
  | '%' :: 'w' :: rest => err.Error.data ++ format s err rest
  | c :: rest => c :: format s err rest
  | [] => []

/-- Go `fmt.Errorf` for a format with one `%s` and one `%w`: the error with
the formatted message that wraps `err`. -/
def Errorf (layout : String) (s : String) (err : GoError) : GoError :=
  .wrapError (String.mk (format s err layout.data)) err

end fmt

/-- What the model takes from the Go release as given: the error the
comparison builtins return for two values of incompatible kinds
(`errBadComparison`).  Its text and what it wraps differ between releases of
Go, so neither is fixed here. -/
structure GoRelease where
  badComparison : Value → Value → GoError

/-- The name of the Go type a value of each kind has by default. -/
def Value.typeName : Value → String
  | .nil => "<nil>"
  | .bool _ => "bool"
  | .int _ => "int"
  | .uint _ => "uint"
  | .str _ => "string"

/-- One release, for the closed instances of the theorems: its comparison
error names the two types after the text of `errBadComparison`, which it
wraps.  The theorems themselves are stated for every release. -/
def sampleGo : GoRelease :=
  ⟨fun arg1 arg2 =>
    .wrapError ("incompatible types for comparison: " ++ arg1.typeName ++ " and "
        ++ arg2.typeName)
      (.errorString "incompatible types for comparison")⟩

/-- The text `errorf` is given for each cause. -/
def template.ExecCause.message (go : GoRelease) : template.ExecCause → String
  | .badComparison fn arg1 arg2 =>
    "error calling " ++ fn.name ++ ": " ++ (go.badComparison arg1 arg2).Error
  | .wrongArgCount .and got =>
    "wrong number of args for and: want at least 1 got " ++ toString got
  | .wrongArgCount .or got =>
    "wrong number of args for or: want at least 1 got " ++ toString got
  | .wrongArgCount fn got =>
    "wrong number of args for " ++ fn.name ++ ": want " ++ toString fn.arity
      ++ " got " ++ toString got
  | .notAFunction arg => "can't give argument to non-function " ++ arg
  | .fieldHasArgs name => name ++ " is not a method but has arguments"
  | .emptyCommand => "empty command"

/-- The message of a failed execution, as `state.errorf` formats it. -/
def Template.errorf (t : Template) (go : GoRelease) (e : template.ExecError) : String :=
  "template: " ++ t.ErrorContext e.pos ++ ": executing \"" ++ t.name ++ "\" at <"
    ++ e.context ++ ">: " ++ e.cause.message go

/-- The Go error of a failed execution: an `ExecError` with the name of the
template around the error `state.errorf` formats, which wraps the error of
the called function when there is one. -/
def Template.execError (t : Template) (go : GoRelease) (e : template.ExecError) : GoError :=
  match e.cause with
  | .badComparison _ arg1 arg2 =>
    .execError t.name (.wrapError (t.errorf go e) (go.badComparison arg1 arg2))
  | _ => .execError t.name (.errorString (t.errorf go e))

/-! ## `path/filepath` -/

namespace filepath

/-- The elements of a path between its separators. -/
def split : List Char → List (List Char)
  | [] => [[]]
  | c :: rest =>
    if c == '/' then [] :: split rest
    else
      match split rest with
      | elem :: elems => (c :: elem) :: elems
      | [] => [[c]]

/-- The loop of Go `Clean` on the elements of a path, `out` holding the
elements kept so far, last one first: empty elements and `.` are dropped,
`..` removes the element before it when there is one to remove, is dropped
at the root and is kept otherwise. -/
def cleanElems (rooted : Bool) : List (List Char) → List (List Char) → List (List Char)
  | out, [] => out
  | out, elem :: rest =>
    if elem == [] || elem == ['.'] then cleanElems rooted out rest
    else if elem == ['.', '.'] then
      match out with
      | last :: out' =>
        if last == ['.', '.'] then cleanElems rooted (elem :: out) rest
        else cleanElems rooted out' rest
      | [] => if rooted then cleanElems rooted [] rest else cleanElems rooted [elem] rest
    else cleanElems rooted (elem :: out) rest

/-- Go `filepath.Clean` (Unix) on the characters of a path: the elements
that the loop keeps, joined by the separator, after the separator when the
path is rooted; the empty result becomes `.`. -/
def cleanChars (path : List Char) : List Char :=
  let rooted := path.head? == some '/'
  let elems := (cleanElems rooted [] (split path)).reverse
  if rooted then '/' :: List.intercalate ['/'] elems
  else if elems.isEmpty then ['.'] else List.intercalate ['/'] elems

/-- Go `filepath.Clean` (Unix): the shortest path naming the same file by
lexical processing alone. -/
def Clean (path : String) : String :=
  String.mk (cleanChars path.data)

/-- Go `filepath.Join` of two elements: the elements from the first
non-empty one on, joined with the separator and cleaned; the empty string
when both are empty. -/
def Join (a b : String) : String :=
  if a != "" then Clean (a ++ "/" ++ b)
  else if b != "" then Clean b
  else ""

/-- The characters of a path up to its last separator, the separator
included; none when it has no separator. -/
def dirChars (path : List Char) : List Char :=
  (path.reverse.dropWhile (fun c => c != '/')).reverse

/-- Go `filepath.Dir`: all but the last element of the path, cleaned. -/
def Dir (path : String) : String :=
  Clean (String.mk (dirChars path.data))

/-- A real path element: not empty, not `.` or `..`, without a separator. -/
def isReal (e : List Char) : Prop :=
  e ≠ [] ∧ e ≠ ['.'] ∧ e ≠ ['.', '.'] ∧ '/' ∉ e

/-- A plain file name: a real path element. -/
def isPlainName (name : String) : Prop :=
  isReal name.data

instance (name : String) : Decidable (isPlainName name) := by
  unfold isPlainName isReal
  infer_instance

/-- The shape of what the loop of `Clean` keeps, last element first: real
elements, above `..` elements, of which a rooted path has none. -/
def StackOK (rooted : Bool) (out : List (List Char)) : Prop :=
  ∃ (reals : List (List Char)) (k : Nat),
    out = reals ++ List.replicate k ['.', '.'] ∧ (rooted = true → k = 0)
      ∧ ∀ e ∈ reals, isReal e

end filepath

/-! ## `os`: files

The file system is a map from cleaned path names to objects.  It has no
links, so two names never share an object; a relative name is a name in its
own right, under the directory `.`; of the directories above a file only the
one that holds it is checked.  The caller owns every object, so access is
decided by the owner bits of the permissions, and a privileged caller passes
every check.  Offsets and lengths count characters. -/

namespace os

/-- An object of the file system. -/
inductive Inode
  | dir (perm : Nat)
  | file (perm : Nat) (content : String)
deriving DecidableEq, Repr

/-- The state of the file system, with the two attributes of the calling
process that opening a file depends on. -/
structure FS where
  privileged : Bool
  umask : Nat
  nodes : String → Option Inode

/-- An open file, `*os.File`: the name it was opened under and the offset of
the next write. -/
structure File where
  name : String
  offset : Nat
deriving DecidableEq, Repr

/-- The flag `O_RDWR`. -/
def O_RDWR : Nat := 0x2

/-- The flag `O_CREATE`. -/
def O_CREATE : Nat := 0x40

/-- The flag `O_TRUNC`. -/
def O_TRUNC : Nat := 0x200

/-- Go `os.FileMode(mode)`: the conversion of an `int` to `uint32`. -/
def FileMode (mode : Int) : Nat :=
  (mode % 2 ^ 32).toNat

/-- Whether the caller may read and write a file with these permissions. -/
def FS.mayReadWrite (fs : FS) (perm : Nat) : Bool :=
  fs.privileged || perm &&& 0o600 == 0o600

/-- Whether the caller may look a name up in a directory with these
permissions. -/
def FS.maySearch (fs : FS) (perm : Nat) : Bool :=
  fs.privileged || perm &&& 0o100 == 0o100

/-- Whether the caller may create a file in a directory with these
permissions. -/
def FS.mayCreate (fs : FS) (perm : Nat) : Bool :=
  fs.privileged || perm &&& 0o300 == 0o300

/-- Whether `name` is a directory. -/
def FS.isDir (fs : FS) (name : String) : Bool :=
  match fs.nodes name with
  | some (.dir _) => true
  | _ => false

/-- The file system with the object at `name` replaced. -/
def FS.put (fs : FS) (name : String) (node : Inode) : FS :=
  { fs with nodes := fun n => if n = name then some node else fs.nodes n }

/-- The content of the file at `name`, if there is a file. -/
def FS.content (fs : FS) (name : String) : Option String :=
  match fs.nodes name with
  | some (.file _ content) => some content
  | _ => none

/-- Go `os.OpenFile` for reading and writing (`flag` contains `O_RDWR`):
the directory that holds `name` must exist and be searchable.  A directory
at `name` cannot be opened for writing.  A file at `name` must be readable
and writable, and is emptied when `flag` has `O_TRUNC`.  When nothing is at
`name`, `flag` must have `O_CREATE` and the directory must permit creation;
the new file is empty and has the permission bits of `perm` that the umask
leaves.  On success the file system after the call and the open file, at
offset 0. -/
def OpenFile (fs : FS) (name : String) (flag : Nat) (perm : Nat) :
    Except GoError (FS × File) :=
  if name == "" then .error (.pathError "open" name .ENOENT)
  else
    match fs.nodes (filepath.Dir name) with
    | none => .error (.pathError "open" name .ENOENT)
    | some (.file _ _) => .error (.pathError "open" name .ENOTDIR)
    | some (.dir dperm) =>
      if !fs.maySearch dperm then .error (.pathError "open" name .EACCES)
      else
        match fs.nodes name with
        | some (.dir _) => .error (.pathError "open" name .EISDIR)
        | some (.file fperm _) =>
          if !fs.mayReadWrite fperm then .error (.pathError "open" name .EACCES)
          else if flag &&& O_TRUNC != 0 then .ok (fs.put name (.file fperm ""), ⟨name, 0⟩)
          else .ok (fs, ⟨name, 0⟩)
        | none =>
          if flag &&& O_CREATE == 0 then .error (.pathError "open" name .ENOENT)
          else if !fs.mayCreate dperm then .error (.pathError "open" name .EACCES)
          else
            .ok (fs.put name (.file (perm &&& 0o777 &&& (0o777 ^^^ (fs.umask &&& 0o777))) ""),
              ⟨name, 0⟩)

/-- The content of a file after `b` is written at offset `off`: what lies
before the offset stays (a gap up to the offset reads as zeros), `b`
replaces what it covers, what lies beyond `b` stays. -/
def writeAt (content : String) (off : Nat) (b : String) : String :=
  String.mk (content.data.take off ++ List.replicate (off - content.length) '\x00'
    ++ b.data ++ content.data.drop (off + b.length))

/-- Go `File.Write`: `b` is written at the offset of the open file, which
advances by the length of `b`.  Writing always succeeds here. -/
def File.Write (f : File) (fs : FS) (b : String) : FS × File :=
  match fs.nodes f.name with
  | some (.file perm content) =>
    (fs.put f.name (.file perm (writeAt content f.offset b)), ⟨f.name, f.offset + b.length⟩)
  | _ => (fs, f)

end os

/-- Go `Template.Execute(fd, data)`: every chunk the execution writes goes
through `File.Write`, in order; the error of the execution, if any. -/
def Template.ExecuteTo (t : Template) (go : GoRelease) (fd : os.File) (data : Bag)
    (fs : os.FS) : Option GoError × os.FS :=
  let s := t.Execute data
  let fs' := (s.wr.foldl (fun (st : os.FS × os.File) b => st.2.Write st.1 b) (fs, fd)).1
  match s.err with
  | some e => (some (t.execError go e), fs')
  | none => (none, fs')

/-! ## `configwriter.go` -/

/-- Config struct -/
structure Config where
  configTemplate : Template
  configDir : String
  configFile : String

/-- GetPath returns the path to the config file -/
def Config.GetPath (c : Config) : String :=
  filepath.Join c.configDir c.configFile

/-- WriteConfig writes the configuration file given a data bag and a
filemode, under the Go release `go` and in the file system `fs`.  The result
is the error (none for `nil`) and the file system after the call; closing
the file leaves the file system as it is. -/
def Config.WriteConfig (c : Config) (go : GoRelease) (data : Bag) (mode : Int)
    (fs : os.FS) : Option GoError × os.FS :=
  match os.OpenFile fs c.GetPath (os.O_CREATE ||| os.O_TRUNC ||| os.O_RDWR)
      (os.FileMode mode) with
  | .error err => (some (fmt.Errorf "Couldn't write %s: %w" c.configFile err), fs)
  | .ok (fs1, fd) =>
    match c.configTemplate.ExecuteTo go fd data fs1 with
    | (some err, fs2) => (some (fmt.Errorf "Couldn't render %s: %w" c.configFile err), fs2)
    | (none, fs2) => (none, fs2)

/-- The text of the `cephConf` template (`\x7b` and `\x7d` are the braces
of the delimiters). -/
def cephConfText : String :=
  "# # Generated by MicroCeph, DO NOT EDIT.\n" ++
  "[global]\n" ++
  "run dir = \x7b\x7b.runDir\x7d\x7d\n" ++
  "fsid = \x7b\x7b.fsid\x7d\x7d\n" ++
  "mon host = \x7b\x7b.monitors\x7d\x7d\n" ++
  "public_network = \x7b\x7b.pubNet\x7d\x7d\n" ++
  "auth allow insecure global id reclaim = false\n" ++
  "ms bind ipv4 = \x7b\x7b.ipv4\x7d\x7d\n" ++
  "ms bind ipv6 = \x7b\x7b.ipv6\x7d\x7d\n" ++
  "\n" ++
  "[client]\n" ++
  "\x7b\x7bif .isCache\x7d\x7drbd_cache = \x7b\x7b.isCache\x7d\x7d\x7b\x7bend\x7d\x7d\n" ++
  "\x7b\x7bif .cacheSize\x7d\x7drbd_cache_size = \x7b\x7b.cacheSize\x7d\x7d\x7b\x7bend\x7d\x7d\n" ++
  "\x7b\x7bif .isCacheWritethrough\x7d\x7drbd_cache_writethrough_until_flush = \x7b\x7b.isCacheWritethrough\x7d\x7d\x7b\x7bend\x7d\x7d\n" ++
  "\x7b\x7bif .cacheMaxDirty\x7d\x7drbd_cache_max_dirty = \x7b\x7b.cacheMaxDirty\x7d\x7d\x7b\x7bend\x7d\x7d\n" ++
  "\x7b\x7bif .cacheTargetDirty\x7d\x7drbd_cache_target_dirty = \x7b\x7b.cacheTargetDirty\x7d\x7d\x7b\x7bend\x7d\x7d\n"

/-- The text of the `cephKeyring` template. -/
def cephKeyringText : String :=
  "# Generated by MicroCeph, DO NOT EDIT.\n" ++
  "[\x7b\x7b.name\x7d\x7d]\n" ++
  "\tkey = \x7b\x7b.key\x7d\x7d\n"

/-- The text of the `radosgwConfig` template. -/
def radosgwConfigText : String :=
  "# Generated by MicroCeph, DO NOT EDIT.\n" ++
  "[global]\n" ++
  "mon host = \x7b\x7b.monitors\x7d\x7d\n" ++
  "run dir = \x7b\x7b.runDir\x7d\x7d\n" ++
  "auth allow insecure global id reclaim = false\n" ++
  "\n" ++
  "[client.radosgw.gateway]\n" ++
  "rgw init timeout = 1200\n" ++
  "rgw frontends = beast\x7b\x7bif or (ne .rgwPort 0) (not .sslCertificatePath) (not .sslPrivateKeyPath)\x7d\x7d port=\x7b\x7b.rgwPort\x7d\x7d\x7b\x7bend\x7d\x7d\x7b\x7bif and .sslCertificatePath .sslPrivateKeyPath\x7d\x7d ssl_port=\x7b\x7b.sslPort\x7d\x7d ssl_certificate=\x7b\x7b.sslCertificatePath\x7d\x7d ssl_private_key=\x7b\x7b.sslPrivateKeyPath\x7d\x7d\x7b\x7bend\x7d\x7d\n"

/-- newCephConfig creates a new ceph.conf -/
def newCephConfig (configDir : String) : Config :=
  { configTemplate := template.Must ((template.New "cephConf").Parse cephConfText)
    configFile := "ceph.conf"
    configDir := configDir }

/-- newCephKeyring creates a new Ceph keyring config -/
def newCephKeyring (configDir configFile : String) : Config :=
  { configTemplate := template.Must ((template.New "cephKeyring").Parse cephKeyringText)
    configDir := configDir
    configFile := configFile }

/-- newRadosGWConfig creates a new radosgw config file -/
def newRadosGWConfig (configDir : String) : Config :=
  { configTemplate := template.Must ((template.New "radosgwConfig").Parse radosgwConfigText)
    configFile := "radosgw.conf"
    configDir := configDir }

/-- The rendering of the template of a Config for a data bag: the chunks the
execution writes, one after the other. -/
def Config.render (c : Config) (data : Bag) : String :=
  String.join (c.configTemplate.Execute data).wr

/-! ## The trees of the three templates -/

/-- The node list of the `cephConf` template. -/
def cephConfRoot : List template.Node :=
  [.text "# # Generated by MicroCeph, DO NOT EDIT.\n[global]\nrun dir = ",
   .action [.field 62 "runDir"],
   .text "\nfsid = ",
   .action [.field 81 "fsid"],
   .text "\nmon host = ",
   .action [.field 102 "monitors"],
   .text "\npublic_network = ",
   .action [.field 133 "pubNet"],
   .text "\nauth allow insecure global id reclaim = false\nms bind ipv4 = ",
   .action [.field 206 "ipv4"],
   .text "\nms bind ipv6 = ",
   .action [.field 231 "ipv6"],
   .text "\n\n[client]\n",
   .ifNode [.field 254 "isCache"]
     [.text "rbd_cache = ", .action [.field 278 "isCache"]],
   .text "\n",
   .ifNode [.field 301 "cacheSize"]
     [.text "rbd_cache_size = ", .action [.field 332 "cacheSize"]],
   .text "\n",
   .ifNode [.field 357 "isCacheWritethrough"]
     [.text "rbd_cache_writethrough_until_flush = ", .action [.field 418 "isCacheWritethrough"]],
   .text "\n",
   .ifNode [.field 453 "cacheMaxDirty"]
     [.text "rbd_cache_max_dirty = ", .action [.field 493 "cacheMaxDirty"]],
   .text "\n",
   .ifNode [.field 522 "cacheTargetDirty"]
     [.text "rbd_cache_target_dirty = ", .action [.field 568 "cacheTargetDirty"]],
   .text "\n"]

/-- The node list of the `cephKeyring` template. -/
def cephKeyringRoot : List template.Node :=
  [.text "# Generated by MicroCeph, DO NOT EDIT.\n[",
   .action [.field 42 "name"],
   .text "]\n\tkey = ",
   .action [.field 60 "key"],
   .text "\n"]

/-- The node list of the `radosgwConfig` template. -/
def radosgwConfigRoot : List template.Node :=
  [.text "# Generated by MicroCeph, DO NOT EDIT.\n[global]\nmon host = ",
   .action [.field 61 "monitors"],
   .text "\nrun dir = ",
   .action [.field 85 "runDir"],
   .text ("\nauth allow insecure global id reclaim = false\n\n[client.radosgw.gateway]\n"
     ++ "rgw init timeout = 1200\nrgw frontends = beast"),
   .ifNode
     [.ident 217 .or,
      .pipe 220 [.ident 221 .ne, .field 224 "rgwPort", .number 233 0],
      .pipe 236 [.ident 237 .not, .field 241 "sslCertificatePath"],
      .pipe 262 [.ident 263 .not, .field 267 "sslPrivateKeyPath"]]
     [.text " port=", .action [.field 296 "rgwPort"]],
   .ifNode
     [.ident 318 .and, .field 322 "sslCertificatePath", .field 342 "sslPrivateKeyPath"]
     [.text " ssl_port=", .action [.field 374 "sslPort"],
      .text " ssl_certificate=", .action [.field 403 "sslCertificatePath"],
      .text " ssl_private_key=", .action [.field 443 "sslPrivateKeyPath"]],
   .text "\n"]

/-! ## What the templates render -/

/-- The `[global]` section of `ceph.conf` for a data bag. -/
def cephConfGlobal (data : Bag) : String :=
  "# # Generated by MicroCeph, DO NOT EDIT.\n[global]\nrun dir = "
    ++ template.printValue (template.evalField data "runDir")
    ++ "\nfsid = " ++ template.printValue (template.evalField data "fsid")
    ++ "\nmon host = " ++ template.printValue (template.evalField data "monitors")
    ++ "\npublic_network = " ++ template.printValue (template.evalField data "pubNet")
    ++ "\nauth allow insecure global id reclaim = false\nms bind ipv4 = "
    ++ template.printValue (template.evalField data "ipv4")
    ++ "\nms bind ipv6 = " ++ template.printValue (template.evalField data "ipv6")
    ++ "\n\n"

/-- A setting of the `[client]` section, without its line end, for the value
`v` of its key: `text` (the option and ` = `) and the value when `v` is
true, nothing otherwise. -/
def clientSetting (text : String) (v : Value) : String :=
  if template.truth v then text ++ template.printValue v else ""

/-- The lines of `radosgw.conf` before the `rgw frontends` line. -/
def radosgwHead (data : Bag) : String :=
  "# Generated by MicroCeph, DO NOT EDIT.\n[global]\nmon host = "
    ++ template.printValue (template.evalField data "monitors")
    ++ "\nrun dir = " ++ template.printValue (template.evalField data "runDir")
    ++ "\nauth allow insecure global id reclaim = false\n\n[client.radosgw.gateway]\n"
    ++ "rgw init timeout = 1200\n"

/-- The plain clause of the `rgw frontends` line. -/
def plainClause (rgwPort : Int) : String :=
  " port=" ++ toString rgwPort

/-- The TLS clause of the `rgw frontends` line. -/
def sslClause (sslPort : Value) (sslCertificatePath sslPrivateKeyPath : String) : String :=
  " ssl_port=" ++ template.printValue sslPort ++ " ssl_certificate=" ++ sslCertificatePath
    ++ " ssl_private_key=" ++ sslPrivateKeyPath

/-- A TLS path is present and not empty. -/
def pathGiven (path : Option String) : Prop :=
  ∃ p, path = some p ∧ p ≠ ""

instance (path : Option String) : Decidable (pathGiven path) :=
  match path with
  | none => isFalse (by simp [pathGiven])
  | some p => if h : p = "" then isFalse (by simp [pathGiven, h]) else isTrue ⟨p, rfl, h⟩

/-- The value a data bag holds for an optional string. -/
def optStr (path : Option String) : Option Value :=
  path.map Value.str

/-- A data bag for the gateway config: monitors, run directory, TLS port,
the given `rgwPort`, and the TLS paths that are given. -/
def gatewayData (rgwPort : Int) (sslCertificatePath sslPrivateKeyPath : Option String) : Bag :=
  fun key =>
    if key = "monitors" then some (.str "10.0.0.1")
    else if key = "runDir" then some (.str "/run/ceph")
    else if key = "rgwPort" then some (.int rgwPort)
    else if key = "sslPort" then some (.int 443)
    else if key = "sslCertificatePath" then optStr sslCertificatePath
    else if key = "sslPrivateKeyPath" then optStr sslPrivateKeyPath
    else none

/-- The optional keys of the main config, each with the text its setting
starts with. -/
def optionalSettings : List (String × String) :=
  [("isCache", "rbd_cache = "),
   ("cacheSize", "rbd_cache_size = "),
   ("isCacheWritethrough", "rbd_cache_writethrough_until_flush = "),
   ("cacheMaxDirty", "rbd_cache_max_dirty = "),
   ("cacheTargetDirty", "rbd_cache_target_dirty = ")]

/-- Whether an entry of the data bag is truthy/non-empty, in the words of
the specification: present, and not nil, not `false`, not 0, not the empty
string. -/
def isSet : Option Value → Prop
  | none => False
  | some v => v ≠ .nil ∧ v ≠ .bool false ∧ v ≠ .int 0 ∧ v ≠ .uint 0 ∧ v ≠ .str ""

instance (entry : Option Value) : Decidable (isSet entry) := by
  cases entry <;> unfold isSet <;> infer_instance

/-- The text the file shows for an entry of the data bag: a string as it
is, a number in decimal, a boolean as `true` or `false`, and `<no value>`
for an entry that is missing or nil. -/
def shownValue : Option Value → String
  | some (.str s) => s
  | some (.int i) => toString i
  | some (.uint n) => toString n
  | some (.bool true) => "true"
  | some (.bool false) => "false"
  | some .nil => "<no value>"
  | none => "<no value>"

/-- The setting the specification expects in the `[client]` section for the
entry of an optional key, without its line end: `text` (the option and
` = `) and the value when the entry is set, nothing otherwise. -/
def expectedSetting (text : String) (entry : Option Value) : String :=
  if isSet entry then text ++ shownValue entry else ""

/-- A data bag for the main config with the required keys only. -/
def cephData : Bag :=
  fun key =>
    if key = "runDir" then some (.str "/run/ceph")
    else if key = "fsid" then some (.str "f00d")
    else if key = "monitors" then some (.str "10.0.0.1")
    else if key = "pubNet" then some (.str "10.0.0.0/24")
    else if key = "ipv4" then some (.bool true)
    else if key = "ipv6" then some (.bool false)
    else none

/-- A file system with the directory `/etc/ceph`, writable by the caller,
and nothing in it. -/
def sampleFS : os.FS :=
  { privileged := false
    umask := 0o022
    nodes := fun n =>
      if n = "/" then some (.dir 0o755)
      else if n = "/etc" then some (.dir 0o755)
      else if n = "/etc/ceph" then some (.dir 0o755)
      else none }

/-- A file system whose directory `/etc/ceph` does not permit the caller to
create files, and holds a file `ceph.conf` the caller may write. -/
def readOnlyDirFS : os.FS :=
  { privileged := false
    umask := 0o022
    nodes := fun n =>
      if n = "/" then some (.dir 0o755)
      else if n = "/etc" then some (.dir 0o755)
      else if n = "/etc/ceph" then some (.dir 0o555)
      else if n = "/etc/ceph/ceph.conf" then some (.file 0o644 "# old content\n")
      else none }

/-- A data bag for the main config with the five optional keys: the cache
is on, with a size of 0, no writethrough, an empty maximum and a target of
4096. -/
def cacheData : Bag :=
  ((((cephData.set "isCache" (.bool true)).set "cacheSize" (.int 0)).set
    "isCacheWritethrough" (.bool false)).set "cacheMaxDirty" (.str "")).set
    "cacheTargetDirty" (.uint 4096)

/-- The sample file system with a file `radosgw.conf` in `/etc/ceph` that
the caller may read but not write. -/
def lockedFileFS : os.FS :=
  { privileged := false
    umask := 0o022
    nodes := fun n =>
      if n = "/" then some (.dir 0o755)
      else if n = "/etc" then some (.dir 0o755)
      else if n = "/etc/ceph" then some (.dir 0o755)
      else if n = "/etc/ceph/radosgw.conf" then some (.file 0o400 "# old content\n")
      else none }

/-- The data bag of a keyring. -/
def keyringData (name key : String) : Bag :=
  (Bag.empty.set "name" (.str name)).set "key" (.str key)

/-- A data bag for the gateway config whose `rgwPort` is the string `80`. -/
def badPortData : Bag :=
  (gatewayData 0 none none).set "rgwPort" (.str "80")

/-! # Theorems -/

open template filepath

set_option maxRecDepth 8000

/-! ## The three templates parse -/

/-- Parsing the `cephKeyring` text succeeds, with this tree. -/
theorem cephKeyring_parse :
    (template.New "cephKeyring").Parse cephKeyringText
      = some ⟨"cephKeyring", cephKeyringText, cephKeyringRoot⟩ := by
  rfl

/-- Parsing the `cephConf` text succeeds, with this tree. -/
theorem cephConf_parse :
    (template.New "cephConf").Parse cephConfText
      = some ⟨"cephConf", cephConfText, cephConfRoot⟩ := by
  rfl

/-- Parsing the `radosgwConfig` text succeeds, with this tree. -/
theorem radosgwConfig_parse :
    (template.New "radosgwConfig").Parse radosgwConfigText
      = some ⟨"radosgwConfig", radosgwConfigText, radosgwConfigRoot⟩ := by
  rfl

/-! ## Lemmas on strings -/

theorem foldl_append_eq (l : List String) (init : String) :
    List.foldl (fun r s => r ++ s) init l = init ++ String.join l := by
  induction l generalizing init with
  | nil => simp [String.join]
  | cons a l ih =>
    simp only [List.foldl_cons, String.join]
    rw [ih, ih ("" ++ a)]
    simp [String.append_assoc]

theorem join_cons (a : String) (l : List String) :
    String.join (a :: l) = a ++ String.join l := by
  simp only [String.join, List.foldl_cons]
  rw [foldl_append_eq]
  simp [String.join]

theorem join_append (l₁ l₂ : List String) :
    String.join (l₁ ++ l₂) = String.join l₁ ++ String.join l₂ := by
  induction l₁ with
  | nil => simp [String.join]
  | cons a l ih => simp [join_cons, ih, String.append_assoc]

/-! ## Lemmas on the walk -/

theorem truth_bool (b : Bool) : truth (.bool b) = b := rfl

theorem truth_nil : truth .nil = false := rfl

theorem truth_str (s : String) : truth (.str s) = (s != "") := rfl

theorem truth_int (i : Int) : truth (.int i) = (i != 0) := rfl

theorem walkList_nil (dot : Bag) (wr : List String) :
    walkList dot wr [] = ⟨wr, none⟩ := by
  simp [walkList]

theorem walkList_text (dot : Bag) (wr : List String) (s : String) (rest : List Node) :
    walkList dot wr (.text s :: rest) = walkList dot (wr ++ [s]) rest := by
  simp [walkList, walk]

theorem walkList_field (dot : Bag) (wr : List String) (pos : Nat) (name : String)
    (rest : List Node) :
    walkList dot wr (.action [.field pos name] :: rest)
      = walkList dot (wr ++ [printValue (evalField dot name)]) rest := by
  simp [walkList, walk, evalCommand]

theorem walkList_if (dot : Bag) (wr : List String) (cmd : List Arg) (v : Value)
    (chunks : List String) (list rest : List Node)
    (hcmd : evalCommand dot cmd = .ok v)
    (hlist : ∀ wr', walkList dot wr' list = ⟨wr' ++ chunks, none⟩) :
    walkList dot wr (.ifNode cmd list :: rest)
      = walkList dot (wr ++ if truth v then chunks else []) rest := by
  simp only [walkList, walk, hcmd]
  cases truth v <;> simp [hlist, walkList_nil]

theorem walkList_if_error (dot : Bag) (wr : List String) (cmd : List Arg) (e : ExecError)
    (list rest : List Node) (hcmd : evalCommand dot cmd = .error e) :
    walkList dot wr (.ifNode cmd list :: rest) = ⟨wr, some e⟩ := by
  simp only [walkList, walk, hcmd]

theorem walkList_setting (dot : Bag) (wr : List String) (p q : Nat) (key text : String)
    (rest : List Node) :
    walkList dot wr (.ifNode [.field p key] [.text text, .action [.field q key]] :: rest)
      = walkList dot (wr ++ if truth (evalField dot key)
          then [text, printValue (evalField dot key)] else []) rest := by
  apply walkList_if
  · simp [evalCommand]
  · intro wr'
    simp [walkList_text, walkList_field, walkList_nil]

/-- What executing the `cephConf` template writes: it never fails. -/
theorem cephConf_execute (configDir : String) (data : Bag) :
    (newCephConfig configDir).configTemplate.Execute data
      = ⟨["# # Generated by MicroCeph, DO NOT EDIT.\n[global]\nrun dir = ",
          printValue (evalField data "runDir"), "\nfsid = ",
          printValue (evalField data "fsid"), "\nmon host = ",
          printValue (evalField data "monitors"), "\npublic_network = ",
          printValue (evalField data "pubNet"),
          "\nauth allow insecure global id reclaim = false\nms bind ipv4 = ",
          printValue (evalField data "ipv4"), "\nms bind ipv6 = ",
          printValue (evalField data "ipv6"), "\n\n[client]\n"]
          ++ (if truth (evalField data "isCache")
              then ["rbd_cache = ", printValue (evalField data "isCache")] else [])
          ++ ["\n"]
          ++ (if truth (evalField data "cacheSize")
              then ["rbd_cache_size = ", printValue (evalField data "cacheSize")] else [])
          ++ ["\n"]
          ++ (if truth (evalField data "isCacheWritethrough")
              then ["rbd_cache_writethrough_until_flush = ",
                printValue (evalField data "isCacheWritethrough")] else [])
          ++ ["\n"]
          ++ (if truth (evalField data "cacheMaxDirty")
              then ["rbd_cache_max_dirty = ", printValue (evalField data "cacheMaxDirty")] else [])
          ++ ["\n"]
          ++ (if truth (evalField data "cacheTargetDirty")
              then ["rbd_cache_target_dirty = ", printValue (evalField data "cacheTargetDirty")]
              else [])
          ++ ["\n"], none⟩ := by
  simp only [newCephConfig, cephConf_parse, template.Must, Template.Execute, cephConfRoot,
    walkList_text, walkList_field, walkList_setting, walkList_nil]
  simp

/-- What the `cephConf` template renders. -/
theorem cephConf_render (configDir : String) (data : Bag) :
    (newCephConfig configDir).render data
      = cephConfGlobal data ++ "[client]\n"
        ++ clientSetting "rbd_cache = " (evalField data "isCache") ++ "\n"
        ++ clientSetting "rbd_cache_size = " (evalField data "cacheSize") ++ "\n"
        ++ clientSetting "rbd_cache_writethrough_until_flush = "
            (evalField data "isCacheWritethrough") ++ "\n"
        ++ clientSetting "rbd_cache_max_dirty = " (evalField data "cacheMaxDirty") ++ "\n"
        ++ clientSetting "rbd_cache_target_dirty = " (evalField data "cacheTargetDirty")
        ++ "\n" := by
  have hset : ∀ (text : String) (v : Value),
      String.join (if truth v then [text, printValue v] else []) = clientSetting text v := by
    intro text v
    unfold clientSetting
    cases truth v <;> simp [String.join]
  have hnil : String.join [] = "" := rfl
  have hlit : ∀ x : String, "\n\n" ++ ("[client]\n" ++ x) = "\n\n[client]\n" ++ x := by
    intro x
    rw [← String.append_assoc]
    rfl
  simp only [Config.render, cephConf_execute, join_append, join_cons, cephConfGlobal, hset, hnil,
    String.append_assoc, String.append_empty, hlit]

/-- The test of the first `if` of the `radosgwConfig` template, for an
integer `rgwPort`: it succeeds, and its value is true when the port is not
zero or one of the two TLS paths is not true. -/
theorem radosgw_or (data : Bag) (rgwPort : Int) (p₁ p₂ p₃ p₄ p₅ p₆ p₇ p₈ p₉ q₁ q₂ : Nat)
    (hport : data "rgwPort" = some (.int rgwPort)) :
    ∃ v, evalCommand data
        [.ident p₁ .or,
         .pipe p₂ [.ident p₃ .ne, .field p₄ "rgwPort", .number p₅ 0],
         .pipe p₆ [.ident p₇ .not, .field p₈ "sslCertificatePath"],
         .pipe q₁ [.ident q₂ .not, .field p₉ "sslPrivateKeyPath"]] = .ok v
      ∧ truth v = (decide (rgwPort ≠ 0) || !truth (evalField data "sslCertificatePath")
          || !truth (evalField data "sslPrivateKeyPath")) := by
  have hf : evalField data "rgwPort" = .int rgwPort := by simp [evalField, hport]
  by_cases h0 : rgwPort = 0
  · cases hc : truth (evalField data "sslCertificatePath") <;>
      cases hk : truth (evalField data "sslPrivateKeyPath") <;>
      simp [evalCommand, evalCall, evalAndOr, evalArg, hf, template.ne, template.eq, h0, hc, hk,
        truth_bool]
  · simp [evalCommand, evalCall, evalAndOr, evalArg, hf, template.ne, template.eq, h0, truth_bool]

/-- The test of the second `if` of the `radosgwConfig` template: it
succeeds, and its value is true when both TLS paths are. -/
theorem radosgw_and (data : Bag) (p₁ p₂ p₃ : Nat) :
    ∃ v, evalCommand data
        [.ident p₁ .and, .field p₂ "sslCertificatePath", .field p₃ "sslPrivateKeyPath"] = .ok v
      ∧ truth v = (truth (evalField data "sslCertificatePath")
          && truth (evalField data "sslPrivateKeyPath")) := by
  cases hc : truth (evalField data "sslCertificatePath") <;>
    simp [evalCommand, evalCall, evalAndOr, evalArg, hc]

/-- What executing the `radosgwConfig` template writes when `rgwPort` is an
integer: it does not fail. -/
theorem radosgw_execute (configDir : String) (data : Bag) (rgwPort : Int)
    (hport : data "rgwPort" = some (.int rgwPort)) :
    (newRadosGWConfig configDir).configTemplate.Execute data
      = ⟨["# Generated by MicroCeph, DO NOT EDIT.\n[global]\nmon host = ",
          printValue (evalField data "monitors"), "\nrun dir = ",
          printValue (evalField data "runDir"),
          "\nauth allow insecure global id reclaim = false\n\n[client.radosgw.gateway]\n"
            ++ "rgw init timeout = 1200\nrgw frontends = beast"]
          ++ (if (decide (rgwPort ≠ 0) || !truth (evalField data "sslCertificatePath")
                || !truth (evalField data "sslPrivateKeyPath"))
              then [" port=", toString rgwPort] else [])
          ++ (if (truth (evalField data "sslCertificatePath")
                && truth (evalField data "sslPrivateKeyPath"))
              then [" ssl_port=", printValue (evalField data "sslPort"),
                " ssl_certificate=", printValue (evalField data "sslCertificatePath"),
                " ssl_private_key=", printValue (evalField data "sslPrivateKeyPath")] else [])
          ++ ["\n"], none⟩ := by
  obtain ⟨v, hv, htv⟩ := radosgw_or data rgwPort 217 220 221 224 233 236 237 241 267 262 263 hport
  obtain ⟨w, hw, htw⟩ := radosgw_and data 318 322 342
  have hf : printValue (evalField data "rgwPort") = toString rgwPort := by
    simp [evalField, hport, printValue]
  simp only [newRadosGWConfig, radosgwConfig_parse, template.Must, Template.Execute,
    radosgwConfigRoot, walkList_text, walkList_field, walkList_nil]
  rw [walkList_if data _ _ v [" port=", toString rgwPort] _ _ hv
    (by intro wr'; simp [walkList_text, walkList_field, walkList_nil, hf])]
  rw [walkList_if data _ _ w [" ssl_port=", printValue (evalField data "sslPort"),
      " ssl_certificate=", printValue (evalField data "sslCertificatePath"),
      " ssl_private_key=", printValue (evalField data "sslPrivateKeyPath")] _ _ hw
    (by intro wr'; simp [walkList_text, walkList_field, walkList_nil])]
  simp [walkList_text, walkList_nil, htv, htw]

/-- What the `radosgwConfig` template renders when `rgwPort` is an integer. -/
theorem radosgw_render (configDir : String) (data : Bag) (rgwPort : Int)
    (hport : data "rgwPort" = some (.int rgwPort)) :
    (newRadosGWConfig configDir).render data
      = radosgwHead data ++ "rgw frontends = beast"
        ++ (if (decide (rgwPort ≠ 0) || !truth (evalField data "sslCertificatePath")
              || !truth (evalField data "sslPrivateKeyPath"))
            then plainClause rgwPort else "")
        ++ (if (truth (evalField data "sslCertificatePath")
              && truth (evalField data "sslPrivateKeyPath"))
            then sslClause (evalField data "sslPort")
              (printValue (evalField data "sslCertificatePath"))
              (printValue (evalField data "sslPrivateKeyPath")) else "")
        ++ "\n" := by
  have hnil : String.join [] = "" := rfl
  have hlit : ∀ x : String,
      "\nauth allow insecure global id reclaim = false\n\n[client.radosgw.gateway]\n"
        ++ ("rgw init timeout = 1200\n" ++ ("rgw frontends = beast" ++ x))
      = "\nauth allow insecure global id reclaim = false\n\n[client.radosgw.gateway]\n"
        ++ "rgw init timeout = 1200\nrgw frontends = beast" ++ x := by
    intro x
    rw [← String.append_assoc "rgw init timeout = 1200\n", ← String.append_assoc]
    rfl
  simp only [Config.render, radosgw_execute configDir data rgwPort hport, join_append, join_cons,
    radosgwHead, String.append_assoc, hlit]
  congr 5
  split <;> split <;>
    simp [join_cons, hnil, plainClause, sslClause, String.append_assoc]

/-- The value of an optional string in a data bag, as a field of dot. -/
theorem evalField_optStr (data : Bag) (key : String) (path : Option String)
    (h : data key = optStr path) :
    truth (evalField data key) = decide (pathGiven path)
      ∧ printValue (evalField data key) = (path.map id).getD "<no value>" := by
  cases path with
  | none => simp [evalField, h, optStr, truth_nil, pathGiven, printValue]
  | some p =>
    by_cases hp : p = ""
    · simp [evalField, h, optStr, truth_str, pathGiven, printValue, hp]
    · simp [evalField, h, optStr, truth_str, pathGiven, printValue, hp]

/-! ## Lemmas on string equality -/

theorem append_left_cancel (a b c : String) (h : a ++ b = a ++ c) : b = c := by
  have h' := congrArg String.data h
  simp only [String.data_append] at h'
  exact String.ext (List.append_cancel_left h')

theorem append_newline_ne (a x : String) (hx : x ≠ "") : a ++ x ++ "\n" ≠ a ++ "\n" := by
  intro h
  rw [String.append_assoc] at h
  have h' := congrArg String.data (append_left_cancel _ _ _ h)
  simp only [String.data_append] at h'
  have hl := congrArg List.length h'
  simp only [List.length_append, String.data] at hl
  apply hx
  apply String.ext
  exact List.length_eq_zero.mp (by omega)

theorem plainClause_ne_empty (rgwPort : Int) (rest : String) :
    plainClause rgwPort ++ rest ≠ "" := by
  intro h
  have h' := congrArg String.length h
  simp only [plainClause, String.length_append] at h'
  have h6 : " port=".length = 6 := by decide
  have h0 : "".length = 0 := by decide
  omega

theorem sslClause_ne_empty (sslPort : Value) (c k : String) : sslClause sslPort c k ≠ "" := by
  intro h
  have h' := congrArg String.length h
  simp only [sslClause, String.length_append] at h'
  have h10 : " ssl_port=".length = 10 := by decide
  have h0 : "".length = 0 := by decide
  omega

/-! ## The claims on what the templates render -/

/-- What executing the `cephKeyring` template writes when `name` and `key`
are strings: it does not fail. -/
theorem keyring_execute (configDir configFile name key : String) (data : Bag)
    (hname : data "name" = some (.str name)) (hkey : data "key" = some (.str key)) :
    (newCephKeyring configDir configFile).configTemplate.Execute data
      = ⟨["# Generated by MicroCeph, DO NOT EDIT.\n[", name, "]\n\tkey = ", key, "\n"], none⟩ := by
  have hn : printValue (evalField data "name") = name := by simp [evalField, hname, printValue]
  have hk : printValue (evalField data "key") = key := by simp [evalField, hkey, printValue]
  simp only [newCephKeyring, cephKeyring_parse, template.Must, Template.Execute,
    cephKeyringRoot, walkList_text, walkList_field, walkList_nil, hn, hk, List.nil_append,
    List.cons_append]

/-- C2: for every name and key, the keyring template rendered with a data
bag that holds them as `name` and `key` succeeds and yields exactly the
header line, the section `[name]` and the line `key = key` after a tab. -/
theorem keyring_render (configDir configFile name key : String) (data : Bag)
    (hname : data "name" = some (.str name)) (hkey : data "key" = some (.str key)) :
    ((newCephKeyring configDir configFile).configTemplate.Execute data).err = none
    ∧ (newCephKeyring configDir configFile).render data
        = "# Generated by MicroCeph, DO NOT EDIT.\n[" ++ name ++ "]\n\tkey = " ++ key ++ "\n" := by
  simp [Config.render, newCephKeyring, cephKeyring_parse, template.Must, Template.Execute,
    cephKeyringRoot, walkList, walk, evalCommand, evalField, hname, hkey, printValue, String.join]

/-- The keyring of the specification: `client.admin` with the key `AQA==`. -/
theorem keyring_render_witness :
    ((Bag.empty.set "name" (.str "client.admin")).set "key" (.str "AQA==")) "name"
        = some (.str "client.admin")
    ∧ ((Bag.empty.set "name" (.str "client.admin")).set "key" (.str "AQA==")) "key"
        = some (.str "AQA==")
    ∧ (newCephKeyring "/var/lib/ceph" "keyring").render
        ((Bag.empty.set "name" (.str "client.admin")).set "key" (.str "AQA=="))
        = "# Generated by MicroCeph, DO NOT EDIT.\n[client.admin]\n\tkey = AQA==\n" :=
  ⟨by decide, by decide,
    (keyring_render "/var/lib/ceph" "keyring" "client.admin" "AQA==" _ (by decide) (by decide)).2⟩

/-- What the execution prints for the value of a key is what the file is
expected to show for the entry of the key. -/
theorem printValue_evalField (data : Bag) (key : String) :
    printValue (evalField data key) = shownValue (data key) := by
  unfold evalField
  cases data key with
  | none => rfl
  | some v =>
    cases v with
    | bool b => cases b <;> rfl
    | _ => rfl

/-- The value of a key is true exactly when the entry of the key is set. -/
theorem truth_evalField (data : Bag) (key : String) :
    truth (evalField data key) = decide (isSet (data key)) := by
  unfold evalField
  cases data key with
  | none => simp [isSet, truth]
  | some v =>
    cases v with
    | nil => simp [isSet, truth]
    | bool b => cases b <;> simp [isSet, truth]
    | int i => by_cases h : i = 0 <;> simp [isSet, truth, h]
    | uint n => by_cases h : n = 0 <;> simp [isSet, truth, h]
    | str s => by_cases h : s = "" <;> simp [isSet, truth, h]

/-- The setting written for the value of a key is the setting expected for
the entry of the key. -/
theorem clientSetting_evalField (text : String) (data : Bag) (key : String) :
    clientSetting text (evalField data key) = expectedSetting text (data key) := by
  unfold clientSetting expectedSetting
  rw [truth_evalField, printValue_evalField]
  by_cases h : isSet (data key) <;> simp [h]

/-- C4: for every data bag the main config renders without error, and the
rendering is the `[global]` section with the entries of the required keys,
then the `[client]` section with one line for each of the five optional
keys, in order: the line holds the setting `option = value` of the entry of
its key when that entry is truthy/non-empty (present and not nil, not
`false`, not 0, not the empty string), and is empty otherwise. -/
theorem cephConf_optional_settings (configDir : String) (data : Bag) :
    ((newCephConfig configDir).configTemplate.Execute data).err = none
    ∧ (newCephConfig configDir).render data
      = "# # Generated by MicroCeph, DO NOT EDIT.\n[global]\nrun dir = "
        ++ shownValue (data "runDir")
        ++ "\nfsid = " ++ shownValue (data "fsid")
        ++ "\nmon host = " ++ shownValue (data "monitors")
        ++ "\npublic_network = " ++ shownValue (data "pubNet")
        ++ "\nauth allow insecure global id reclaim = false\nms bind ipv4 = "
        ++ shownValue (data "ipv4")
        ++ "\nms bind ipv6 = " ++ shownValue (data "ipv6")
        ++ "\n\n" ++ "[client]\n"
        ++ expectedSetting "rbd_cache = " (data "isCache") ++ "\n"
        ++ expectedSetting "rbd_cache_size = " (data "cacheSize") ++ "\n"
        ++ expectedSetting "rbd_cache_writethrough_until_flush = "
            (data "isCacheWritethrough") ++ "\n"
        ++ expectedSetting "rbd_cache_max_dirty = " (data "cacheMaxDirty") ++ "\n"
        ++ expectedSetting "rbd_cache_target_dirty = " (data "cacheTargetDirty")
        ++ "\n" := by
  refine ⟨by rw [cephConf_execute], ?_⟩
  rw [cephConf_render]
  simp only [cephConfGlobal, clientSetting_evalField, printValue_evalField]

/-- The main config for a data bag in which the cache is on and has a
target, and the three other optional keys are 0, `false` and the empty
string: two settings, three empty lines. -/
theorem cephConf_optional_settings_witness :
    cacheData "isCache" = some (.bool true)
    ∧ cacheData "cacheSize" = some (.int 0)
    ∧ cacheData "isCacheWritethrough" = some (.bool false)
    ∧ cacheData "cacheMaxDirty" = some (.str "")
    ∧ cacheData "cacheTargetDirty" = some (.uint 4096)
    ∧ (newCephConfig "/etc/ceph").render cacheData
      = "# # Generated by MicroCeph, DO NOT EDIT.\n[global]\nrun dir = /run/ceph\n"
        ++ "fsid = f00d\nmon host = 10.0.0.1\npublic_network = 10.0.0.0/24\n"
        ++ "auth allow insecure global id reclaim = false\nms bind ipv4 = true\n"
        ++ "ms bind ipv6 = false\n\n[client]\nrbd_cache = true\n\n\n\n"
        ++ "rbd_cache_target_dirty = 4096\n"
    ∧ (newCephConfig "/etc/ceph").render cephData
      = "# # Generated by MicroCeph, DO NOT EDIT.\n[global]\nrun dir = /run/ceph\n"
        ++ "fsid = f00d\nmon host = 10.0.0.1\npublic_network = 10.0.0.0/24\n"
        ++ "auth allow insecure global id reclaim = false\nms bind ipv4 = true\n"
        ++ "ms bind ipv6 = false\n\n[client]\n\n\n\n\n\n" :=
  ⟨by decide, by decide, by decide, by decide, by decide,
    (cephConf_optional_settings "/etc/ceph" cacheData).2.trans (by decide),
    (cephConf_optional_settings "/etc/ceph" cephData).2.trans (by decide)⟩

/-- What the gateway config renders for an integer `rgwPort` and TLS paths
that are absent or strings. -/
theorem radosgw_render_paths (configDir : String) (data : Bag) (rgwPort : Int)
    (sslCertificatePath sslPrivateKeyPath : Option String)
    (hport : data "rgwPort" = some (.int rgwPort))
    (hcert : data "sslCertificatePath" = optStr sslCertificatePath)
    (hkey : data "sslPrivateKeyPath" = optStr sslPrivateKeyPath) :
    (newRadosGWConfig configDir).render data
      = radosgwHead data ++ "rgw frontends = beast"
        ++ (if rgwPort ≠ 0 ∨ ¬ pathGiven sslCertificatePath ∨ ¬ pathGiven sslPrivateKeyPath
            then plainClause rgwPort else "")
        ++ (if pathGiven sslCertificatePath ∧ pathGiven sslPrivateKeyPath
            then sslClause (evalField data "sslPort") (sslCertificatePath.getD "")
              (sslPrivateKeyPath.getD "") else "")
        ++ "\n" := by
  obtain ⟨htc, hpc⟩ := evalField_optStr data _ _ hcert
  obtain ⟨htk, hpk⟩ := evalField_optStr data _ _ hkey
  rw [radosgw_render configDir data rgwPort hport, htc, htk, hpc, hpk]
  by_cases hc : pathGiven sslCertificatePath <;> by_cases hk : pathGiven sslPrivateKeyPath <;>
    by_cases h0 : rgwPort = 0 <;> simp [hc, hk, h0]
  all_goals
    obtain ⟨c, rfl, -⟩ := hc
    obtain ⟨k, rfl, -⟩ := hk
    simp

/-- C1: for every integer `rgwPort` and every pair of TLS paths, each absent
or a string, the gateway config renders without error and its last line is
`rgw frontends = beast`, then the plain clause ` port=<rgwPort>` exactly
when `rgwPort` is not 0 or one of the paths is absent or empty, then the
clause ` ssl_port=.. ssl_certificate=.. ssl_private_key=..` exactly when
both paths are present and not empty. -/
theorem radosgw_frontends_clauses (configDir : String) (data : Bag) (rgwPort : Int)
    (sslCertificatePath sslPrivateKeyPath : Option String)
    (hport : data "rgwPort" = some (.int rgwPort))
    (hcert : data "sslCertificatePath" = optStr sslCertificatePath)
    (hkey : data "sslPrivateKeyPath" = optStr sslPrivateKeyPath) :
    ((newRadosGWConfig configDir).configTemplate.Execute data).err = none
    ∧ (newRadosGWConfig configDir).render data
      = radosgwHead data ++ "rgw frontends = beast"
        ++ (if rgwPort ≠ 0 ∨ ¬ pathGiven sslCertificatePath ∨ ¬ pathGiven sslPrivateKeyPath
            then plainClause rgwPort else "")
        ++ (if pathGiven sslCertificatePath ∧ pathGiven sslPrivateKeyPath
            then sslClause (evalField data "sslPort") (sslCertificatePath.getD "")
              (sslPrivateKeyPath.getD "") else "")
        ++ "\n" :=
  ⟨by rw [radosgw_execute configDir data rgwPort hport],
    radosgw_render_paths configDir data rgwPort _ _ hport hcert hkey⟩

/-- The two cases the specification names: port 0 without TLS paths gives
`beast port=0`; a port with both TLS paths gives both clauses, the plain one
first. -/
theorem radosgw_frontends_clauses_witness :
    (gatewayData 0 none none) "rgwPort" = some (.int 0)
    ∧ (gatewayData 0 none none) "sslCertificatePath" = optStr none
    ∧ (gatewayData 0 none none) "sslPrivateKeyPath" = optStr none
    ∧ (newRadosGWConfig "/etc/ceph").render (gatewayData 0 none none)
      = "# Generated by MicroCeph, DO NOT EDIT.\n[global]\nmon host = 10.0.0.1\n"
        ++ "run dir = /run/ceph\nauth allow insecure global id reclaim = false\n\n"
        ++ "[client.radosgw.gateway]\nrgw init timeout = 1200\n"
        ++ "rgw frontends = beast port=0\n"
    ∧ (newRadosGWConfig "/etc/ceph").render (gatewayData 80 (some "/c.pem") (some "/k.pem"))
      = "# Generated by MicroCeph, DO NOT EDIT.\n[global]\nmon host = 10.0.0.1\n"
        ++ "run dir = /run/ceph\nauth allow insecure global id reclaim = false\n\n"
        ++ "[client.radosgw.gateway]\nrgw init timeout = 1200\n"
        ++ "rgw frontends = beast port=80 ssl_port=443 ssl_certificate=/c.pem"
        ++ " ssl_private_key=/k.pem\n" :=
  ⟨by decide, by decide, by decide,
    (radosgw_frontends_clauses "/etc/ceph" (gatewayData 0 none none) 0 none none
      (by decide) (by decide) (by decide)).2.trans (by decide),
    (radosgw_frontends_clauses "/etc/ceph" (gatewayData 80 (some "/c.pem") (some "/k.pem")) 80
      (some "/c.pem") (some "/k.pem") (by decide) (by decide) (by decide)).2.trans (by decide)⟩

/-- C10: for every integer `rgwPort` and every pair of TLS paths the
`rgw frontends` line is never the bare `beast`: when `rgwPort` is 0 and both
paths are given the TLS clause stands alone, and in every other case the
plain clause is there, followed by the TLS clause when both paths are
given. -/
theorem radosgw_frontends_never_bare (configDir : String) (data : Bag) (rgwPort : Int)
    (sslCertificatePath sslPrivateKeyPath : Option String)
    (hport : data "rgwPort" = some (.int rgwPort))
    (hcert : data "sslCertificatePath" = optStr sslCertificatePath)
    (hkey : data "sslPrivateKeyPath" = optStr sslPrivateKeyPath) :
    (newRadosGWConfig configDir).render data
        ≠ radosgwHead data ++ "rgw frontends = beast" ++ "\n"
    ∧ (rgwPort = 0 ∧ pathGiven sslCertificatePath ∧ pathGiven sslPrivateKeyPath →
        (newRadosGWConfig configDir).render data
          = radosgwHead data ++ "rgw frontends = beast"
            ++ sslClause (evalField data "sslPort") (sslCertificatePath.getD "")
              (sslPrivateKeyPath.getD "") ++ "\n")
    ∧ (¬ (rgwPort = 0 ∧ pathGiven sslCertificatePath ∧ pathGiven sslPrivateKeyPath) →
        (newRadosGWConfig configDir).render data
          = radosgwHead data ++ "rgw frontends = beast" ++ plainClause rgwPort
            ++ (if pathGiven sslCertificatePath ∧ pathGiven sslPrivateKeyPath
                then sslClause (evalField data "sslPort") (sslCertificatePath.getD "")
                  (sslPrivateKeyPath.getD "") else "")
            ++ "\n") := by
  have hr := radosgw_render_paths configDir data rgwPort _ _ hport hcert hkey
  refine ⟨?_, ?_, ?_⟩
  · rw [hr]
    by_cases hs : rgwPort = 0 ∧ pathGiven sslCertificatePath ∧ pathGiven sslPrivateKeyPath
    · obtain ⟨h0, hc, hk⟩ := hs
      simp only [h0, hc, hk, ne_eq, not_true_eq_false, or_self, if_false, and_self, if_true,
        String.append_empty]
      exact append_newline_ne _ _ (sslClause_ne_empty _ _ _)
    · have hp : rgwPort ≠ 0 ∨ ¬ pathGiven sslCertificatePath ∨ ¬ pathGiven sslPrivateKeyPath := by
        by_contra hn
        push_neg at hn
        exact hs hn
      rw [if_pos hp, String.append_assoc (radosgwHead data ++ "rgw frontends = beast")]
      exact append_newline_ne _ _ (plainClause_ne_empty _ _)
  · rintro ⟨h0, hc, hk⟩
    rw [hr]
    simp [h0, hc, hk]
  · intro hs
    have hp : rgwPort ≠ 0 ∨ ¬ pathGiven sslCertificatePath ∨ ¬ pathGiven sslPrivateKeyPath := by
      by_contra hn
      push_neg at hn
      exact hs hn
    rw [hr, if_pos hp]

/-- Port 0 with both TLS paths: the TLS clause alone. -/
theorem radosgw_frontends_never_bare_witness :
    (gatewayData 0 (some "/c.pem") (some "/k.pem")) "rgwPort" = some (.int 0)
    ∧ (gatewayData 0 (some "/c.pem") (some "/k.pem")) "sslCertificatePath"
        = optStr (some "/c.pem")
    ∧ (gatewayData 0 (some "/c.pem") (some "/k.pem")) "sslPrivateKeyPath"
        = optStr (some "/k.pem")
    ∧ (newRadosGWConfig "/etc/ceph").render (gatewayData 0 (some "/c.pem") (some "/k.pem"))
      = "# Generated by MicroCeph, DO NOT EDIT.\n[global]\nmon host = 10.0.0.1\n"
        ++ "run dir = /run/ceph\nauth allow insecure global id reclaim = false\n\n"
        ++ "[client.radosgw.gateway]\nrgw init timeout = 1200\n"
        ++ "rgw frontends = beast ssl_port=443 ssl_certificate=/c.pem"
        ++ " ssl_private_key=/k.pem\n" :=
  ⟨by decide, by decide, by decide,
    ((radosgw_frontends_never_bare "/etc/ceph" (gatewayData 0 (some "/c.pem") (some "/k.pem")) 0
      (some "/c.pem") (some "/k.pem") (by decide) (by decide) (by decide)).2.1
        ⟨rfl, by decide, by decide⟩).trans (by decide)⟩

theorem evalField_set (data : Bag) (k k' : String) (v : Value) :
    evalField (data.set k v) k' = if k' = k then v else evalField data k' := by
  by_cases h : k' = k <;> simp [evalField, Bag.set, h]

theorem evalField_erase (data : Bag) (k k' : String) :
    evalField (data.erase k) k' = if k' = k then .nil else evalField data k' := by
  by_cases h : k' = k <;> simp [evalField, Bag.erase, h]

/-- C3, as stated, fails: with `isCache` set the main config has the line
`rbd_cache = true` after `[client]`; with `isCache` omitted the output is
not that output without the line, an empty line stands in its place. -/
theorem cephConf_empty_line_for_omitted_key :
    (newCephConfig "/etc/ceph").render (cephData.set "isCache" (.bool true))
      = "# # Generated by MicroCeph, DO NOT EDIT.\n[global]\nrun dir = /run/ceph\n"
        ++ "fsid = f00d\nmon host = 10.0.0.1\npublic_network = 10.0.0.0/24\n"
        ++ "auth allow insecure global id reclaim = false\nms bind ipv4 = true\n"
        ++ "ms bind ipv6 = false\n\n[client]\n"
        ++ "rbd_cache = true\n"
        ++ "\n\n\n\n"
    ∧ (newCephConfig "/etc/ceph").render (cephData.erase "isCache")
      ≠ "# # Generated by MicroCeph, DO NOT EDIT.\n[global]\nrun dir = /run/ceph\n"
        ++ "fsid = f00d\nmon host = 10.0.0.1\npublic_network = 10.0.0.0/24\n"
        ++ "auth allow insecure global id reclaim = false\nms bind ipv4 = true\n"
        ++ "ms bind ipv6 = false\n\n[client]\n"
        ++ "\n\n\n\n"
    ∧ (newCephConfig "/etc/ceph").render (cephData.erase "isCache")
      = "# # Generated by MicroCeph, DO NOT EDIT.\n[global]\nrun dir = /run/ceph\n"
        ++ "fsid = f00d\nmon host = 10.0.0.1\npublic_network = 10.0.0.0/24\n"
        ++ "auth allow insecure global id reclaim = false\nms bind ipv4 = true\n"
        ++ "ms bind ipv6 = false\n\n[client]\n"
        ++ "\n"
        ++ "\n\n\n\n" := by
  refine ⟨?_, ?_, ?_⟩
  · rw [cephConf_render]
    decide
  · rw [cephConf_render]
    decide
  · rw [cephConf_render]
    decide

/-- C3, amended: for every data bag and each optional key of the main
config, the output with the key omitted is the output with the key set to a
true value without the text `option = value` of its line; the end of that
line stays, as an empty line after the line before it. -/
theorem cephConf_omitted_key (configDir : String) (data : Bag) (key text : String)
    (hkey : (key, text) ∈ optionalSettings) :
    ∃ pre post : String, ∀ v : Value, truth v = true →
      (newCephConfig configDir).render (data.set key v)
          = pre ++ "\n" ++ text ++ printValue v ++ "\n" ++ post
      ∧ (newCephConfig configDir).render (data.erase key) = pre ++ "\n" ++ "\n" ++ post := by
  simp only [optionalSettings, List.mem_cons, Prod.mk.injEq, List.mem_singleton,
    List.not_mem_nil, or_false] at hkey
  rcases hkey with ⟨rfl, rfl⟩ | ⟨rfl, rfl⟩ | ⟨rfl, rfl⟩ | ⟨rfl, rfl⟩ | ⟨rfl, rfl⟩
  · refine ⟨cephConfGlobal data ++ "[client]",
      clientSetting "rbd_cache_size = " (evalField data "cacheSize") ++ "\n"
      ++ clientSetting "rbd_cache_writethrough_until_flush = " (evalField data "isCacheWritethrough") ++ "\n"
      ++ clientSetting "rbd_cache_max_dirty = " (evalField data "cacheMaxDirty") ++ "\n"
      ++ clientSetting "rbd_cache_target_dirty = " (evalField data "cacheTargetDirty") ++ "\n", fun v hv => ?_⟩
    have hlit : ∀ x : String, "[client]" ++ ("\n" ++ x) = "[client]\n" ++ x := by
      intro x
      rw [← String.append_assoc]
      rfl
    have hs := cephConf_render configDir (data.set "isCache" v)
    have he := cephConf_render configDir (data.erase "isCache")
    simp [cephConfGlobal, evalField_set, evalField_erase, clientSetting, truth_nil, hv] at hs he
    simp only [hs, he, clientSetting, cephConfGlobal, String.append_assoc, String.append_empty,
      String.empty_append, hlit, and_self]
  · refine ⟨cephConfGlobal data ++ "[client]\n"
      ++ clientSetting "rbd_cache = " (evalField data "isCache"),
      clientSetting "rbd_cache_writethrough_until_flush = " (evalField data "isCacheWritethrough") ++ "\n"
      ++ clientSetting "rbd_cache_max_dirty = " (evalField data "cacheMaxDirty") ++ "\n"
      ++ clientSetting "rbd_cache_target_dirty = " (evalField data "cacheTargetDirty") ++ "\n", fun v hv => ?_⟩
    have hlit : ∀ x : String, "[client]" ++ ("\n" ++ x) = "[client]\n" ++ x := by
      intro x
      rw [← String.append_assoc]
      rfl
    have hs := cephConf_render configDir (data.set "cacheSize" v)
    have he := cephConf_render configDir (data.erase "cacheSize")
    simp [cephConfGlobal, evalField_set, evalField_erase, clientSetting, truth_nil, hv] at hs he
    simp only [hs, he, clientSetting, cephConfGlobal, String.append_assoc, String.append_empty,
      String.empty_append, hlit, and_self]
  · refine ⟨cephConfGlobal data ++ "[client]\n"
      ++ clientSetting "rbd_cache = " (evalField data "isCache") ++ "\n"
      ++ clientSetting "rbd_cache_size = " (evalField data "cacheSize"),
      clientSetting "rbd_cache_max_dirty = " (evalField data "cacheMaxDirty") ++ "\n"
      ++ clientSetting "rbd_cache_target_dirty = " (evalField data "cacheTargetDirty") ++ "\n", fun v hv => ?_⟩
    have hlit : ∀ x : String, "[client]" ++ ("\n" ++ x) = "[client]\n" ++ x := by
      intro x
      rw [← String.append_assoc]
      rfl
    have hs := cephConf_render configDir (data.set "isCacheWritethrough" v)
    have he := cephConf_render configDir (data.erase "isCacheWritethrough")
    simp [cephConfGlobal, evalField_set, evalField_erase, clientSetting, truth_nil, hv] at hs he
    simp only [hs, he, clientSetting, cephConfGlobal, String.append_assoc, String.append_empty,
      String.empty_append, hlit, and_self]
  · refine ⟨cephConfGlobal data ++ "[client]\n"
      ++ clientSetting "rbd_cache = " (evalField data "isCache") ++ "\n"
      ++ clientSetting "rbd_cache_size = " (evalField data "cacheSize") ++ "\n"
      ++ clientSetting "rbd_cache_writethrough_until_flush = " (evalField data "isCacheWritethrough"),
      clientSetting "rbd_cache_target_dirty = " (evalField data "cacheTargetDirty") ++ "\n", fun v hv => ?_⟩
    have hlit : ∀ x : String, "[client]" ++ ("\n" ++ x) = "[client]\n" ++ x := by
      intro x
      rw [← String.append_assoc]
      rfl
    have hs := cephConf_render configDir (data.set "cacheMaxDirty" v)
    have he := cephConf_render configDir (data.erase "cacheMaxDirty")
    simp [cephConfGlobal, evalField_set, evalField_erase, clientSetting, truth_nil, hv] at hs he
    simp only [hs, he, clientSetting, cephConfGlobal, String.append_assoc, String.append_empty,
      String.empty_append, hlit, and_self]
  · refine ⟨cephConfGlobal data ++ "[client]\n"
      ++ clientSetting "rbd_cache = " (evalField data "isCache") ++ "\n"
      ++ clientSetting "rbd_cache_size = " (evalField data "cacheSize") ++ "\n"
      ++ clientSetting "rbd_cache_writethrough_until_flush = " (evalField data "isCacheWritethrough") ++ "\n"
      ++ clientSetting "rbd_cache_max_dirty = " (evalField data "cacheMaxDirty"),
      "", fun v hv => ?_⟩
    have hlit : ∀ x : String, "[client]" ++ ("\n" ++ x) = "[client]\n" ++ x := by
      intro x
      rw [← String.append_assoc]
      rfl
    have hs := cephConf_render configDir (data.set "cacheTargetDirty" v)
    have he := cephConf_render configDir (data.erase "cacheTargetDirty")
    simp [cephConfGlobal, evalField_set, evalField_erase, clientSetting, truth_nil, hv] at hs he
    simp only [hs, he, clientSetting, cephConfGlobal, String.append_assoc, String.append_empty,
      String.empty_append, hlit, and_self]

/-- An optional key of the specification: `cacheSize`. -/
theorem cephConf_omitted_key_witness :
    ("cacheSize", "rbd_cache_size = ") ∈ optionalSettings
    ∧ ∃ pre post : String, ∀ v : Value, truth v = true →
      (newCephConfig "/etc/ceph").render (cephData.set "cacheSize" v)
          = pre ++ "\n" ++ "rbd_cache_size = " ++ printValue v ++ "\n" ++ post
      ∧ (newCephConfig "/etc/ceph").render (cephData.erase "cacheSize")
          = pre ++ "\n" ++ "\n" ++ post :=
  ⟨by decide, cephConf_omitted_key "/etc/ceph" cephData "cacheSize" "rbd_cache_size = "
    (by decide)⟩

/-! ## Lemmas on paths -/

theorem split_ne_nil (p : List Char) : split p ≠ [] := by
  cases p with
  | nil => simp [split]
  | cons c rest =>
    unfold split
    split
    · simp
    · split <;> simp

theorem split_cons_sep (p : List Char) : split ('/' :: p) = [] :: split p := by
  simp [split]

theorem split_append_sep (a b : List Char) : split (a ++ '/' :: b) = split a ++ split b := by
  induction a with
  | nil => simp [split]
  | cons c a ih =>
    by_cases hc : c = '/'
    · subst hc
      simp [split, ih]
    · have hc' : (c == '/') = false := by simpa using hc
      obtain ⟨e, es, hes⟩ := List.exists_cons_of_ne_nil (split_ne_nil a)
      have h1 : split (c :: (a ++ '/' :: b))
          = match split (a ++ '/' :: b) with
            | elem :: elems => (c :: elem) :: elems
            | [] => [[c]] := by
        simp [split, hc']
      have h2 : split (c :: a) = (c :: e) :: es := by
        simp [split, hc', hes]
      rw [List.cons_append, h1, h2, ih, hes]
      rfl

theorem split_plain (f : List Char) (hf : '/' ∉ f) : split f = [f] := by
  induction f with
  | nil => simp [split]
  | cons c f ih =>
    have hc : (c == '/') = false := by
      simp only [List.mem_cons, not_or] at hf
      simpa using fun h => hf.1 h.symm
    have hf' : '/' ∉ f := fun h => hf (List.mem_cons_of_mem _ h)
    simp [split, hc, ih hf']

theorem cleanElems_append (rooted : Bool) (out xs ys : List (List Char)) :
    cleanElems rooted out (xs ++ ys) = cleanElems rooted (cleanElems rooted out xs) ys := by
  induction xs generalizing out with
  | nil => simp [cleanElems]
  | cons x xs ih =>
    simp only [List.cons_append, cleanElems]
    split
    · exact ih _
    · split
      · split
        · split
          · exact ih _
          · exact ih _
        · split
          · exact ih _
          · exact ih _
      · exact ih _


theorem split_no_sep (p : List Char) : ∀ e ∈ split p, '/' ∉ e := by
  induction p with
  | nil => simp [split]
  | cons c p ih =>
    by_cases hc : c = '/'
    · subst hc
      intro e he
      simp only [split_cons_sep, List.mem_cons] at he
      rcases he with rfl | he
      · simp
      · exact ih e he
    · have hc' : (c == '/') = false := by simpa using hc
      obtain ⟨x, xs, hxs⟩ := List.exists_cons_of_ne_nil (split_ne_nil p)
      have h2 : split (c :: p) = (c :: x) :: xs := by simp [split, hc', hxs]
      intro e he
      rw [h2, List.mem_cons] at he
      rcases he with rfl | he
      · have hx := ih x (by rw [hxs]; exact List.mem_cons_self _ _)
        simp only [List.mem_cons, not_or]
        exact ⟨fun h => hc h.symm, hx⟩
      · exact ih e (by rw [hxs]; exact List.mem_cons_of_mem _ he)

theorem cleanElems_skip (rooted : Bool) (out rest : List (List Char)) :
    cleanElems rooted out ([] :: rest) = cleanElems rooted out rest := by
  simp [cleanElems]

theorem cleanElems_real (rooted : Bool) (out rest : List (List Char)) (f : List Char)
    (hf : isReal f) : cleanElems rooted out (f :: rest) = cleanElems rooted (f :: out) rest := by
  obtain ⟨h1, h2, h3, -⟩ := hf
  simp [cleanElems, h1, h2, h3]

theorem cleanElems_reals (rooted : Bool) (reals out rest : List (List Char))
    (h : ∀ e ∈ reals, isReal e) :
    cleanElems rooted out (reals ++ rest) = cleanElems rooted (reals.reverse ++ out) rest := by
  induction reals generalizing out with
  | nil => simp
  | cons x xs ih =>
    rw [List.cons_append, cleanElems_real rooted out _ x (h x (List.mem_cons_self _ _)),
      ih _ (fun e he => h e (List.mem_cons_of_mem _ he))]
    simp

theorem cleanElems_dotdots (j k : Nat) (rest : List (List Char)) :
    cleanElems false (List.replicate j ['.', '.']) (List.replicate k ['.', '.'] ++ rest)
      = cleanElems false (List.replicate (j + k) ['.', '.']) rest := by
  induction k generalizing j with
  | zero => simp
  | succ k ih =>
    have hstep : cleanElems false (List.replicate j ['.', '.'])
        (['.', '.'] :: (List.replicate k ['.', '.'] ++ rest))
        = cleanElems false (List.replicate (j + 1) ['.', '.'])
            (List.replicate k ['.', '.'] ++ rest) := by
      cases j with
      | zero => simp [cleanElems]
      | succ j => simp [cleanElems, List.replicate_succ]
    rw [List.replicate_succ, List.cons_append, hstep, ih]
    congr 2
    omega

theorem stackOK_step (rooted : Bool) (out : List (List Char)) (x : List Char)
    (hout : StackOK rooted out) (hx : '/' ∉ x) :
    StackOK rooted (cleanElems rooted out [x]) := by
  obtain ⟨reals, k, rfl, hk, hreals⟩ := hout
  by_cases h1 : x = []
  · subst h1
    simpa [cleanElems] using ⟨reals, k, rfl, hk, hreals⟩
  by_cases h2 : x = ['.']
  · subst h2
    simpa [cleanElems] using ⟨reals, k, rfl, hk, hreals⟩
  by_cases h3 : x = ['.', '.']
  · subst h3
    cases reals with
    | nil =>
      cases k with
      | zero =>
        cases rooted with
        | true => exact ⟨[], 0, by simp [cleanElems], hk, by simp⟩
        | false => exact ⟨[], 1, by simp [cleanElems], by simp, by simp⟩
      | succ k =>
        have hr : rooted = false := by
          cases rooted with
          | true => exact absurd (hk rfl) (by omega)
          | false => rfl
        subst hr
        exact ⟨[], k + 2, by simp [cleanElems, List.replicate_succ], by simp, by simp⟩
    | cons r reals =>
      have hr := hreals r (List.mem_cons_self _ _)
      have hne : r ≠ ['.', '.'] := hr.2.2.1
      refine ⟨reals, k, ?_, hk, fun e he => hreals e (List.mem_cons_of_mem _ he)⟩
      simp [cleanElems, hne]
  · refine ⟨x :: reals, k, ?_, hk, ?_⟩
    · simp [cleanElems, h1, h2, h3]
    · intro e he
      rcases List.mem_cons.mp he with rfl | he
      · exact ⟨h1, h2, h3, hx⟩
      · exact hreals e he

theorem stackOK_cleanElems (rooted : Bool) (out xs : List (List Char))
    (hout : StackOK rooted out) (hxs : ∀ e ∈ xs, '/' ∉ e) :
    StackOK rooted (cleanElems rooted out xs) := by
  induction xs generalizing out with
  | nil => simpa [cleanElems] using hout
  | cons x xs ih =>
    have h := cleanElems_append rooted out [x] xs
    rw [List.singleton_append] at h
    rw [h]
    exact ih _ (stackOK_step rooted out x hout (hxs x (List.mem_cons_self _ _)))
      (fun e he => hxs e (List.mem_cons_of_mem _ he))

/-- Cleaning the kept elements again, in path order, keeps them all. -/
theorem cleanElems_stack (rooted : Bool) (out rest : List (List Char))
    (hout : StackOK rooted out) :
    cleanElems rooted [] (out.reverse ++ rest) = cleanElems rooted out rest := by
  obtain ⟨reals, k, rfl, hk, hreals⟩ := hout
  have hrev : (reals ++ List.replicate k ['.', '.']).reverse
      = List.replicate k ['.', '.'] ++ reals.reverse := by
    simp [List.reverse_append]
  have hrr : ∀ e ∈ reals.reverse, isReal e := fun e he => hreals e (List.mem_reverse.mp he)
  rw [hrev, List.append_assoc]
  cases rooted with
  | true =>
    have hk0 := hk rfl
    subst hk0
    simp only [List.replicate_zero, List.nil_append, List.append_nil]
    rw [cleanElems_reals true _ _ _ hrr]
    simp
  | false =>
    have h := cleanElems_dotdots 0 k (reals.reverse ++ rest)
    simp only [List.replicate_zero, Nat.zero_add] at h
    rw [h, cleanElems_reals false _ _ _ hrr]
    simp


theorem intercalate_single (x : List Char) : List.intercalate ['/'] [x] = x := by
  simp [List.intercalate]

theorem intercalate_cons_cons (x y : List Char) (ys : List (List Char)) :
    List.intercalate ['/'] (x :: y :: ys) = x ++ '/' :: List.intercalate ['/'] (y :: ys) := by
  simp [List.intercalate, List.intersperse]

theorem intercalate_append_single (xs : List (List Char)) (f : List Char) (hxs : xs ≠ []) :
    List.intercalate ['/'] (xs ++ [f]) = List.intercalate ['/'] xs ++ '/' :: f := by
  induction xs with
  | nil => exact absurd rfl hxs
  | cons x xs ih =>
    cases xs with
    | nil => simp [intercalate_single, intercalate_cons_cons]
    | cons y ys =>
      have h := ih (by simp)
      rw [List.cons_append, List.cons_append, intercalate_cons_cons, intercalate_cons_cons,
        ← List.cons_append, h]
      simp

theorem split_intercalate (xs : List (List Char)) (hxs : xs ≠ [])
    (hsep : ∀ e ∈ xs, '/' ∉ e) : split (List.intercalate ['/'] xs) = xs := by
  induction xs with
  | nil => exact absurd rfl hxs
  | cons x xs ih =>
    cases xs with
    | nil =>
      rw [intercalate_single]
      exact split_plain x (hsep x (List.mem_cons_self _ _))
    | cons y ys =>
      rw [intercalate_cons_cons, split_append_sep,
        split_plain x (hsep x (List.mem_cons_self _ _)),
        ih (by simp) (fun e he => hsep e (List.mem_cons_of_mem _ he))]
      rfl

theorem head_intercalate (xs : List (List Char)) (rest : List Char) (hxs : xs ≠ [])
    (h : ∀ e ∈ xs, e ≠ [] ∧ '/' ∉ e) :
    ((List.intercalate ['/'] xs ++ rest).head? == some '/') = false := by
  cases xs with
  | nil => exact absurd rfl hxs
  | cons x xs =>
    obtain ⟨hx1, hx2⟩ := h x (List.mem_cons_self _ _)
    cases x with
    | nil => exact absurd rfl hx1
    | cons c x =>
      have hc : c ≠ '/' := by
        intro hc
        apply hx2
        simp [hc]
      cases xs with
      | nil => simpa [intercalate_single] using hc
      | cons y ys => simpa [intercalate_cons_cons] using hc

theorem dropWhile_to_sep (l m : List Char) (hl : ∀ c ∈ l, c ≠ '/') :
    (l ++ '/' :: m).dropWhile (fun c => c != '/') = '/' :: m := by
  induction l with
  | nil => simp [List.dropWhile]
  | cons c l ih =>
    have hc : c ≠ '/' := hl c (List.mem_cons_self _ _)
    simp only [List.cons_append, List.dropWhile]
    have hb : (c != '/') = true := by simpa using hc
    rw [hb]
    exact ih (fun c' hc' => hl c' (List.mem_cons_of_mem _ hc'))

theorem dropWhile_no_sep (l : List Char) (hl : ∀ c ∈ l, c ≠ '/') :
    l.dropWhile (fun c => c != '/') = [] := by
  induction l with
  | nil => simp
  | cons c l ih =>
    have hc : c ≠ '/' := hl c (List.mem_cons_self _ _)
    have hb : (c != '/') = true := by simpa using hc
    simp only [List.dropWhile, hb]
    exact ih (fun c' hc' => hl c' (List.mem_cons_of_mem _ hc'))

theorem dirChars_append (p f : List Char) (hf : '/' ∉ f) :
    dirChars (p ++ '/' :: f) = p ++ ['/'] := by
  have hl : ∀ c ∈ f.reverse, c ≠ '/' := by
    intro c hc hc'
    apply hf
    rw [← hc']
    exact List.mem_reverse.mp hc
  unfold dirChars
  have hrev : (p ++ '/' :: f).reverse = f.reverse ++ '/' :: p.reverse := by simp
  rw [hrev, dropWhile_to_sep _ _ hl]
  simp

theorem dirChars_plain (f : List Char) (hf : '/' ∉ f) : dirChars f = [] := by
  have hl : ∀ c ∈ f.reverse, c ≠ '/' := by
    intro c hc hc'
    apply hf
    rw [← hc']
    exact List.mem_reverse.mp hc
  unfold dirChars
  rw [dropWhile_no_sep _ hl]
  rfl

theorem stackOK_elems (rooted : Bool) (out : List (List Char)) (h : StackOK rooted out) :
    ∀ e ∈ out, e ≠ [] ∧ '/' ∉ e := by
  obtain ⟨reals, k, rfl, -, hreals⟩ := h
  intro e he
  rcases List.mem_append.mp he with he | he
  · exact ⟨(hreals e he).1, (hreals e he).2.2.2⟩
  · have := List.eq_of_mem_replicate he
    subst this
    exact ⟨by simp, by decide⟩

/-- The directory of a cleaned path that ends in a real element is the
cleaned path without that element. -/
theorem cleanChars_dir_join (d f : List Char) (hd : d ≠ []) (hf : isReal f) :
    cleanChars (dirChars (cleanChars (d ++ '/' :: f))) = cleanChars d := by
  have hsf : '/' ∉ f := hf.2.2.2
  have hhead : (d ++ '/' :: f).head? = d.head? := by
    cases d with
    | nil => exact absurd rfl hd
    | cons c d => rfl
  have hE : StackOK (d.head? == some '/') (cleanElems (d.head? == some '/') [] (split d)) :=
    stackOK_cleanElems _ _ _ ⟨[], 0, rfl, fun _ => rfl, by simp⟩ (split_no_sep d)
  have hjoin : cleanElems (d.head? == some '/') [] (split (d ++ '/' :: f))
      = f :: cleanElems (d.head? == some '/') [] (split d) := by
    rw [split_append_sep, split_plain f hsf, cleanElems_append, cleanElems_real _ _ _ _ hf]
    rfl
  generalize hEdef : cleanElems (d.head? == some '/') [] (split d) = E at hE hjoin
  have hEelems := stackOK_elems _ E hE
  have hrebuild := cleanElems_stack (d.head? == some '/') E [[]] hE
  rw [cleanElems_skip] at hrebuild
  have hrebuild' : cleanElems (d.head? == some '/') [] (E.reverse ++ [[]]) = E := by
    rw [hrebuild]; rfl
  have hc1 : cleanChars (d ++ '/' :: f)
      = if (d.head? == some '/') = true then '/' :: List.intercalate ['/'] (E.reverse ++ [f])
        else List.intercalate ['/'] (E.reverse ++ [f]) := by
    unfold cleanChars
    simp only [hhead, hjoin, List.reverse_cons]
    split
    · rfl
    · simp
  have hc2 : cleanChars d
      = if (d.head? == some '/') = true then '/' :: List.intercalate ['/'] E.reverse
        else if E.reverse.isEmpty then ['.'] else List.intercalate ['/'] E.reverse := by
    unfold cleanChars
    simp only [hEdef]
  rw [hc1, hc2]
  by_cases hEnil : E = []
  · subst hEnil
    cases hr : (d.head? == some '/') with
    | true =>
      simp only [List.reverse_nil, List.nil_append, intercalate_single, if_true]
      have : dirChars ('/' :: f) = ['/'] := dirChars_append [] f hsf
      rw [this]
      decide
    | false =>
      simp only [List.reverse_nil, List.nil_append, intercalate_single, Bool.false_eq_true,
        if_false]
      rw [dirChars_plain f hsf]
      decide
  · have hrevne : E.reverse ≠ [] := by simpa using hEnil
    have hrevel : ∀ e ∈ E.reverse, e ≠ [] ∧ '/' ∉ e :=
      fun e he => hEelems e (List.mem_reverse.mp he)
    have hisE : E.reverse.isEmpty = false := by
      cases hER : E.reverse with
      | nil => exact absurd hER hrevne
      | cons _ _ => rfl
    rw [intercalate_append_single _ _ hrevne]
    cases hr : (d.head? == some '/') with
    | true =>
      rw [hr] at hrebuild'
      simp only [if_true]
      have hdc : dirChars ('/' :: (List.intercalate ['/'] E.reverse ++ '/' :: f))
          = '/' :: (List.intercalate ['/'] E.reverse ++ ['/']) := by
        have := dirChars_append ('/' :: List.intercalate ['/'] E.reverse) f hsf
        simpa using this
      rw [hdc]
      unfold cleanChars
      have hsp : split ('/' :: (List.intercalate ['/'] E.reverse ++ ['/']))
          = [] :: (E.reverse ++ [[]]) := by
        rw [split_cons_sep, split_append_sep,
          split_intercalate _ hrevne (fun e he => (hrevel e he).2)]
        rfl
      simp only [List.head?_cons, beq_self_eq_true, if_true, hsp, cleanElems_skip, hrebuild']
    | false =>
      rw [hr] at hrebuild'
      simp only [Bool.false_eq_true, if_false, hisE]
      rw [dirChars_append _ f hsf]
      unfold cleanChars
      have hh := head_intercalate E.reverse ['/'] hrevne hrevel
      have hsp : split (List.intercalate ['/'] E.reverse ++ ['/']) = E.reverse ++ [[]] := by
        rw [split_append_sep, split_intercalate _ hrevne (fun e he => (hrevel e he).2)]
        rfl
      simp only [hh, Bool.false_eq_true, if_false, hsp, hrebuild', hisE]

/-- The directory of the path of a plain file name joined to a directory is
the cleaned directory. -/
theorem Dir_Join (dir file : String) (hdir : dir ≠ "") (hfile : isPlainName file) :
    Dir (Join dir file) = Clean dir := by
  have hd : dir.data ≠ [] := fun h => hdir (String.ext h)
  have hne : (dir != "") = true := by simpa using hdir
  simp only [Dir, Join, hne, if_true, Clean, String.data_append]
  rw [List.append_assoc, List.singleton_append, cleanChars_dir_join _ _ hd hfile]

/-- A cleaned path is never empty. -/
theorem cleanChars_ne_nil (p : List Char) : cleanChars p ≠ [] := by
  have hok : StackOK (p.head? == some '/') (cleanElems (p.head? == some '/') [] (split p)) :=
    stackOK_cleanElems _ [] (split p) ⟨[], 0, rfl, fun _ => rfl, by simp⟩ (split_no_sep p)
  have hel := stackOK_elems _ _ hok
  have hel2 : ∀ e ∈ (cleanElems (p.head? == some '/') [] (split p)).reverse, e ≠ [] :=
    fun e he => (hel e (List.mem_reverse.mp he)).1
  unfold cleanChars
  simp only
  generalize (cleanElems (p.head? == some '/') [] (split p)).reverse = elems at hel2
  split
  · simp
  · split
    · simp
    · cases elems with
      | nil => simp at *
      | cons x xs =>
        have hx : x ≠ [] := hel2 x (List.mem_cons_self _ _)
        cases xs with
        | nil => rw [intercalate_single]; exact hx
        | cons y ys => rw [intercalate_cons_cons]; simp [hx]

/-- A cleaned path is never the empty string. -/
theorem Clean_ne_empty (path : String) : Clean path ≠ "" := by
  intro h
  exact cleanChars_ne_nil path.data (congrArg String.data h)

/-- A file name joined to a directory is never the empty string. -/
theorem Join_ne_empty (dir file : String) (hfile : file ≠ "") : Join dir file ≠ "" := by
  unfold Join
  split
  · exact Clean_ne_empty _
  · split
    · exact Clean_ne_empty _
    · rename_i h
      simp [hfile] at h

/-! ## Lemmas on errors -/

theorem Errorf_write (s : String) (err : GoError) :
    fmt.Errorf "Couldn't write %s: %w" s err
      = .wrapError ("Couldn't write " ++ s ++ ": " ++ err.Error) err := by
  unfold fmt.Errorf
  congr 1
  apply String.ext
  have h : fmt.format s err "Couldn't write %s: %w".data
      = "Couldn't write ".data ++ (s.data ++ (": ".data ++ (err.Error.data ++ []))) := rfl
  rw [h]
  simp [String.data_append]

theorem Errorf_render (s : String) (err : GoError) :
    fmt.Errorf "Couldn't render %s: %w" s err
      = .wrapError ("Couldn't render " ++ s ++ ": " ++ err.Error) err := by
  unfold fmt.Errorf
  congr 1
  apply String.ext
  have h : fmt.format s err "Couldn't render %s: %w".data
      = "Couldn't render ".data ++ (s.data ++ (": ".data ++ (err.Error.data ++ []))) := rfl
  rw [h]
  simp [String.data_append]

theorem write_ne_render (x y : String) : "Couldn't write " ++ x ≠ "Couldn't render " ++ y := by
  intro h
  have h1 : ("Couldn't write " ++ x).data[9]? = some 'w' := rfl
  have h2 : ("Couldn't render " ++ y).data[9]? = some 'r' := rfl
  rw [h, h2] at h1
  exact absurd h1 (by decide)

/-! ## Lemmas on files -/

theorem writeAt_end (content b : String) :
    os.writeAt content content.length b = content ++ b := by
  apply String.ext
  show content.data.take content.data.length
      ++ List.replicate (content.data.length - content.data.length) '\x00' ++ b.data
      ++ content.data.drop (content.data.length + b.data.length) = (content ++ b).data
  rw [List.take_length, Nat.sub_self, List.drop_eq_nil_of_le (Nat.le_add_right _ _),
    String.data_append]
  simp

theorem put_nodes_self (fs : os.FS) (name : String) (node : os.Inode) :
    (fs.put name node).nodes name = some node := by
  simp [os.FS.put]

theorem put_nodes_ne (fs : os.FS) (name n : String) (node : os.Inode) (h : n ≠ name) :
    (fs.put name node).nodes n = fs.nodes n := by
  simp [os.FS.put, h]

/-- Writing chunks one after the other from the end of a file appends them
all to it, and touches nothing else. -/
theorem foldl_Write (chunks : List String) (fs : os.FS) (name : String) (perm : Nat)
    (content : String) (hnode : fs.nodes name = some (.file perm content)) :
    ((chunks.foldl (fun (st : os.FS × os.File) b => st.2.Write st.1 b)
        (fs, ⟨name, content.length⟩)).1).nodes name
        = some (.file perm (content ++ String.join chunks))
    ∧ (∀ n, n ≠ name →
        ((chunks.foldl (fun (st : os.FS × os.File) b => st.2.Write st.1 b)
          (fs, ⟨name, content.length⟩)).1).nodes n = fs.nodes n)
    ∧ ((chunks.foldl (fun (st : os.FS × os.File) b => st.2.Write st.1 b)
          (fs, ⟨name, content.length⟩)).1).privileged = fs.privileged
    ∧ ((chunks.foldl (fun (st : os.FS × os.File) b => st.2.Write st.1 b)
          (fs, ⟨name, content.length⟩)).1).umask = fs.umask := by
  induction chunks generalizing fs content with
  | nil => simp [String.join, hnode]
  | cons b rest ih =>
    have hstep : os.File.Write ⟨name, content.length⟩ fs b
        = (fs.put name (.file perm (content ++ b)), ⟨name, (content ++ b).length⟩) := by
      simp [os.File.Write, hnode, writeAt_end, String.length_append]
    simp only [List.foldl_cons, hstep]
    obtain ⟨h1, h2, h3, h4⟩ := ih (fs.put name (.file perm (content ++ b))) (content ++ b)
      (put_nodes_self _ _ _)
    refine ⟨?_, ?_, ?_, ?_⟩
    · rw [h1, join_cons, String.append_assoc]
    · intro n hn
      rw [h2 n hn, put_nodes_ne _ _ _ _ hn]
    · rw [h3]; rfl
    · rw [h4]; rfl

/-- What a successful `OpenFile` with `O_CREATE|O_TRUNC|O_RDWR` leaves: an
empty file under the name, everything else as it was. -/
theorem OpenFile_ok (fs fs1 : os.FS) (name : String) (perm : Nat) (fd : os.File)
    (h : os.OpenFile fs name (os.O_CREATE ||| os.O_TRUNC ||| os.O_RDWR) perm = .ok (fs1, fd)) :
    fd = ⟨name, 0⟩ ∧ (∃ p, fs1.nodes name = some (.file p ""))
    ∧ (∀ n, n ≠ name → fs1.nodes n = fs.nodes n)
    ∧ fs1.privileged = fs.privileged ∧ fs1.umask = fs.umask := by
  unfold os.OpenFile at h
  have hT : ((os.O_CREATE ||| os.O_TRUNC ||| os.O_RDWR) &&& os.O_TRUNC != 0) = true := by decide
  have hC : ((os.O_CREATE ||| os.O_TRUNC ||| os.O_RDWR) &&& os.O_CREATE == 0) = false := by
    decide
  simp only [hT, hC, if_true] at h
  split at h
  · cases h
  · split at h
    · cases h
    · cases h
    · split at h
      · cases h
      · split at h
        · cases h
        · split at h
          · cases h
          · cases h
            exact ⟨rfl, ⟨_, put_nodes_self _ _ _⟩, fun n hn => put_nodes_ne _ _ _ _ hn, rfl, rfl⟩
        · simp only [Bool.false_eq_true, if_false] at h
          split at h
          · cases h
          · cases h
            exact ⟨rfl, ⟨_, put_nodes_self _ _ _⟩, fun n hn => put_nodes_ne _ _ _ _ hn, rfl, rfl⟩

/-- What `ExecuteTo` does to an empty file just opened: the file holds the
chunks of the execution, everything else is as it was, and the error is the
error of the execution. -/
theorem ExecuteTo_fresh (t : Template) (go : GoRelease) (data : Bag) (fs : os.FS) (name : String) (perm : Nat)
    (hnode : fs.nodes name = some (.file perm "")) :
    (t.ExecuteTo go ⟨name, 0⟩ data fs).1 = (t.Execute data).err.map (t.execError go)
    ∧ (t.ExecuteTo go ⟨name, 0⟩ data fs).2.nodes name
        = some (.file perm (String.join (t.Execute data).wr))
    ∧ (∀ n, n ≠ name → (t.ExecuteTo go ⟨name, 0⟩ data fs).2.nodes n = fs.nodes n)
    ∧ (t.ExecuteTo go ⟨name, 0⟩ data fs).2.privileged = fs.privileged
    ∧ (t.ExecuteTo go ⟨name, 0⟩ data fs).2.umask = fs.umask := by
  obtain ⟨h1, h2, h3, h4⟩ := foldl_Write (t.Execute data).wr fs name perm "" hnode
  have h0 : "".length = 0 := rfl
  rw [h0] at h1 h2 h3 h4
  have he : ("" : String) ++ String.join (t.Execute data).wr = String.join (t.Execute data).wr :=
    String.empty_append _
  rw [he] at h1
  simp only [Template.ExecuteTo]
  cases herr : (t.Execute data).err with
  | none => exact ⟨rfl, h1, h2, h3, h4⟩
  | some e => exact ⟨rfl, h1, h2, h3, h4⟩

/-- `WriteConfig` when the file cannot be opened: the error wraps the cause
and the file system is as before. -/
theorem WriteConfig_open_error (c : Config) (go : GoRelease) (data : Bag) (mode : Int) (fs : os.FS)
    (err : GoError)
    (h : os.OpenFile fs c.GetPath (os.O_CREATE ||| os.O_TRUNC ||| os.O_RDWR) (os.FileMode mode)
      = .error err) :
    c.WriteConfig go data mode fs = (some (fmt.Errorf "Couldn't write %s: %w" c.configFile err), fs) := by
  simp [Config.WriteConfig, h]

/-- `WriteConfig` when the file can be opened: the result is the error of
the execution, wrapped, or none; the file holds what the execution wrote and
everything else is as before. -/
theorem WriteConfig_open_ok (c : Config) (go : GoRelease) (data : Bag) (mode : Int) (fs : os.FS)
    (r : os.FS × os.File)
    (h : os.OpenFile fs c.GetPath (os.O_CREATE ||| os.O_TRUNC ||| os.O_RDWR) (os.FileMode mode)
      = .ok r) :
    (c.WriteConfig go data mode fs).1
        = ((c.configTemplate.Execute data).err.map (c.configTemplate.execError go)).map
            (fmt.Errorf "Couldn't render %s: %w" c.configFile)
    ∧ (c.WriteConfig go data mode fs).2.content c.GetPath = some (c.render data)
    ∧ (∀ n, n ≠ c.GetPath → (c.WriteConfig go data mode fs).2.nodes n = fs.nodes n)
    ∧ (c.WriteConfig go data mode fs).2.privileged = fs.privileged
    ∧ (c.WriteConfig go data mode fs).2.umask = fs.umask := by
  obtain ⟨fs1, fd⟩ := r
  obtain ⟨rfl, ⟨p, hp⟩, hframe, hpriv, humask⟩ := OpenFile_ok fs fs1 _ _ fd h
  obtain ⟨h1, h2, h3, h4, h5⟩ := ExecuteTo_fresh c.configTemplate go data fs1 c.GetPath p hp
  have hw : c.WriteConfig go data mode fs
      = match c.configTemplate.ExecuteTo go ⟨c.GetPath, 0⟩ data fs1 with
        | (some err, fs2) => (some (fmt.Errorf "Couldn't render %s: %w" c.configFile err), fs2)
        | (none, fs2) => (none, fs2) := by
    simp [Config.WriteConfig, h]
  rw [hw]
  generalize c.configTemplate.ExecuteTo go ⟨c.GetPath, 0⟩ data fs1 = res at h1 h2 h3 h4 h5
  obtain ⟨e, fs2⟩ := res
  simp only at h1 h2 h3 h4 h5
  cases e with
  | none =>
    refine ⟨?_, ?_, ?_, ?_, ?_⟩
    · simp [← h1]
    · simp [os.FS.content, h2, Config.render]
    · intro n hn; simp [h3 n hn, hframe n hn]
    · simp [h4, hpriv]
    · simp [h5, humask]
  | some e =>
    refine ⟨?_, ?_, ?_, ?_, ?_⟩
    · simp [← h1]
    · simp [os.FS.content, h2, Config.render]
    · intro n hn; simp [h3 n hn, hframe n hn]
    · simp [h4, hpriv]
    · simp [h5, humask]

/-- `WriteConfig` returns no error only when the file was opened. -/
theorem WriteConfig_nil_opened (c : Config) (go : GoRelease) (data : Bag) (mode : Int) (fs : os.FS)
    (h : (c.WriteConfig go data mode fs).1 = none) :
    ∃ r, os.OpenFile fs c.GetPath (os.O_CREATE ||| os.O_TRUNC ||| os.O_RDWR) (os.FileMode mode)
      = .ok r := by
  cases hopen : os.OpenFile fs c.GetPath (os.O_CREATE ||| os.O_TRUNC ||| os.O_RDWR)
      (os.FileMode mode) with
  | error err =>
    rw [WriteConfig_open_error c go data mode fs err hopen] at h
    cases h
  | ok r => exact ⟨r, rfl⟩

/-! ## The claims on `WriteConfig` -/

/-- C5: for every Config, data bag, mode and file system on which
`WriteConfig` succeeds, the file at `GetPath()` then exists and holds
exactly the rendering of the template for the data bag, and every other path
of the file system is as before; `GetPath()` is the directory joined with
the file name, which is `ceph.conf` for the main config, `radosgw.conf` for
the gateway config and the given name for a keyring. -/
theorem WriteConfig_writes_rendering (c : Config) (go : GoRelease) (data : Bag) (mode : Int) (fs : os.FS)
    (h : (c.WriteConfig go data mode fs).1 = none) :
    (c.WriteConfig go data mode fs).2.content c.GetPath = some (c.render data)
    ∧ (∀ n, n ≠ c.GetPath → (c.WriteConfig go data mode fs).2.nodes n = fs.nodes n)
    ∧ c.GetPath = filepath.Join c.configDir c.configFile
    ∧ (∀ dir, (newCephConfig dir).GetPath = filepath.Join dir "ceph.conf")
    ∧ (∀ dir, (newRadosGWConfig dir).GetPath = filepath.Join dir "radosgw.conf")
    ∧ (∀ dir file, (newCephKeyring dir file).GetPath = filepath.Join dir file) := by
  obtain ⟨r, hr⟩ := WriteConfig_nil_opened c go data mode fs h
  obtain ⟨-, h2, h3, -, -⟩ := WriteConfig_open_ok c go data mode fs r hr
  exact ⟨h2, h3, rfl, fun _ => rfl, fun _ => rfl, fun _ _ => rfl⟩

/-- C6: for every Config and data bags `d1`, `d2` on which `WriteConfig`
succeeds one after the other, the file then holds exactly the rendering of
`d2`, which is also what any single successful write of `d2` leaves; between
the two writes it held the rendering of `d1`. -/
theorem WriteConfig_twice (c : Config) (go : GoRelease) (d1 d2 : Bag) (mode1 mode2 : Int) (fs : os.FS)
    (h1 : (c.WriteConfig go d1 mode1 fs).1 = none)
    (h2 : (c.WriteConfig go d2 mode2 (c.WriteConfig go d1 mode1 fs).2).1 = none) :
    (c.WriteConfig go d1 mode1 fs).2.content c.GetPath = some (c.render d1)
    ∧ (c.WriteConfig go d2 mode2 (c.WriteConfig go d1 mode1 fs).2).2.content c.GetPath
        = some (c.render d2)
    ∧ (∀ (fs0 : os.FS) (mode : Int), (c.WriteConfig go d2 mode fs0).1 = none →
        (c.WriteConfig go d2 mode fs0).2.content c.GetPath
          = (c.WriteConfig go d2 mode2 (c.WriteConfig go d1 mode1 fs).2).2.content c.GetPath) := by
  obtain ⟨r1, hr1⟩ := WriteConfig_nil_opened c go d1 mode1 fs h1
  obtain ⟨r2, hr2⟩ := WriteConfig_nil_opened c go d2 mode2 _ h2
  have hc1 := (WriteConfig_open_ok c go d1 mode1 fs r1 hr1).2.1
  have hc2 := (WriteConfig_open_ok c go d2 mode2 _ r2 hr2).2.1
  refine ⟨hc1, hc2, ?_⟩
  intro fs0 mode h0
  obtain ⟨r0, hr0⟩ := WriteConfig_nil_opened c go d2 mode fs0 h0
  rw [(WriteConfig_open_ok c go d2 mode fs0 r0 hr0).2.1, hc2]

/-- C7, as stated, fails: the directory `/etc/ceph` does not permit the
caller to create files, yet `WriteConfig` succeeds, because `ceph.conf` is
already there and writable; its old content is replaced. -/
theorem WriteConfig_succeeds_without_create_permission :
    readOnlyDirFS.nodes "/etc/ceph" = some (.dir 0o555)
    ∧ readOnlyDirFS.mayCreate 0o555 = false
    ∧ (newCephConfig "/etc/ceph").configDir = "/etc/ceph"
    ∧ (newCephConfig "/etc/ceph").GetPath = "/etc/ceph/ceph.conf"
    ∧ readOnlyDirFS.content "/etc/ceph/ceph.conf" = some "# old content\n"
    ∧ ((newCephConfig "/etc/ceph").WriteConfig sampleGo cephData 0o644 readOnlyDirFS).1 = none
    ∧ ((newCephConfig "/etc/ceph").WriteConfig sampleGo cephData 0o644 readOnlyDirFS).2.content
        "/etc/ceph/ceph.conf"
      = some ("# # Generated by MicroCeph, DO NOT EDIT.\n[global]\nrun dir = /run/ceph\n"
        ++ "fsid = f00d\nmon host = 10.0.0.1\npublic_network = 10.0.0.0/24\n"
        ++ "auth allow insecure global id reclaim = false\nms bind ipv4 = true\n"
        ++ "ms bind ipv6 = false\n\n[client]\n\n\n\n\n\n") := by
  have hopen : os.OpenFile readOnlyDirFS (newCephConfig "/etc/ceph").GetPath
      (os.O_CREATE ||| os.O_TRUNC ||| os.O_RDWR) (os.FileMode 0o644)
      = .ok (readOnlyDirFS.put "/etc/ceph/ceph.conf" (.file 0o644 ""),
          ⟨"/etc/ceph/ceph.conf", 0⟩) := by
    rfl
  obtain ⟨h1, h2, -, -, -⟩ := WriteConfig_open_ok (newCephConfig "/etc/ceph") sampleGo cephData 0o644
    readOnlyDirFS _ hopen
  refine ⟨by decide, by decide, rfl, by decide, by decide, ?_, ?_⟩
  · rw [h1, cephConf_execute]
    rfl
  · have hp : (newCephConfig "/etc/ceph").GetPath = "/etc/ceph/ceph.conf" := by decide
    rw [hp] at h2
    rw [h2, cephConf_render]
    decide

/-- C7, amended: for every Config, data bag, mode and file system in which
the directory that holds `GetPath()` does not exist, or does not permit the
caller to create files while nothing is at `GetPath()` yet, `WriteConfig`
returns the open error around the error of `open`, whatever the template is,
and the file system is the one before the call.  The directory that holds
`GetPath()` is the cleaned `configDir` when `configDir` is not empty and
`configFile` is a plain file name. -/
theorem WriteConfig_open_fails (c : Config) (go : GoRelease) (data : Bag) (mode : Int) (fs : os.FS)
    (h : fs.isDir (filepath.Dir c.GetPath) = false
      ∨ (∃ perm, fs.nodes (filepath.Dir c.GetPath) = some (.dir perm)
          ∧ fs.mayCreate perm = false ∧ fs.nodes c.GetPath = none)) :
    (∃ errno : Errno,
      c.WriteConfig go data mode fs
        = (some (fmt.Errorf "Couldn't write %s: %w" c.configFile
            (.pathError "open" c.GetPath errno)), fs)
      ∧ ∀ t : Template,
          ({ c with configTemplate := t } : Config).WriteConfig go data mode fs
            = c.WriteConfig go data mode fs)
    ∧ (c.configDir ≠ "" → isPlainName c.configFile →
        filepath.Dir c.GetPath = filepath.Clean c.configDir) := by
  refine ⟨?_, fun hdir hfile => Dir_Join c.configDir c.configFile hdir hfile⟩
  have key : ∃ errno : Errno,
      os.OpenFile fs c.GetPath (os.O_CREATE ||| os.O_TRUNC ||| os.O_RDWR) (os.FileMode mode)
        = .error (.pathError "open" c.GetPath errno) := by
    unfold os.OpenFile
    split
    · exact ⟨_, rfl⟩
    · rcases h with h | ⟨perm, hd, hc, hn⟩
      · split
        · exact ⟨_, rfl⟩
        · exact ⟨_, rfl⟩
        · rename_i dperm hdir
          simp [os.FS.isDir, hdir] at h
      · rw [hd]
        simp only
        split
        · exact ⟨_, rfl⟩
        · rw [hn]
          simp only [hc]
          split
          · exact ⟨_, rfl⟩
          · exact ⟨_, rfl⟩
  obtain ⟨errno, he⟩ := key
  refine ⟨errno, WriteConfig_open_error c go data mode fs _ he, fun t => ?_⟩
  rw [WriteConfig_open_error c go data mode fs _ he]
  exact WriteConfig_open_error { c with configTemplate := t } go data mode fs _ he

/-- A missing directory, and a directory that does not permit creation with
no file in it yet: the open error both times. -/
theorem WriteConfig_open_fails_witness :
    filepath.Dir (newCephConfig "/var/lib/ceph").GetPath = "/var/lib/ceph"
    ∧ sampleFS.isDir (filepath.Dir (newCephConfig "/var/lib/ceph").GetPath) = false
    ∧ (∃ errno : Errno,
      (newCephConfig "/var/lib/ceph").WriteConfig sampleGo cephData 0o644 sampleFS
        = (some (fmt.Errorf "Couldn't write %s: %w" (newCephConfig "/var/lib/ceph").configFile
            (.pathError "open" (newCephConfig "/var/lib/ceph").GetPath errno)), sampleFS)
      ∧ ∀ t : Template,
          ({ newCephConfig "/var/lib/ceph" with configTemplate := t } : Config).WriteConfig
              sampleGo cephData 0o644 sampleFS
            = (newCephConfig "/var/lib/ceph").WriteConfig sampleGo cephData 0o644 sampleFS)
    ∧ readOnlyDirFS.nodes (filepath.Dir (newRadosGWConfig "/etc/ceph").GetPath)
        = some (.dir 0o555)
    ∧ readOnlyDirFS.mayCreate 0o555 = false
    ∧ readOnlyDirFS.nodes (newRadosGWConfig "/etc/ceph").GetPath = none
    ∧ (∃ errno : Errno,
      (newRadosGWConfig "/etc/ceph").WriteConfig sampleGo (gatewayData 80 none none) 0o644 readOnlyDirFS
        = (some (fmt.Errorf "Couldn't write %s: %w" (newRadosGWConfig "/etc/ceph").configFile
            (.pathError "open" (newRadosGWConfig "/etc/ceph").GetPath errno)), readOnlyDirFS)
      ∧ ∀ t : Template,
          ({ newRadosGWConfig "/etc/ceph" with configTemplate := t } : Config).WriteConfig
              sampleGo (gatewayData 80 none none) 0o644 readOnlyDirFS
            = (newRadosGWConfig "/etc/ceph").WriteConfig sampleGo (gatewayData 80 none none) 0o644
                readOnlyDirFS) :=
  ⟨by decide, by decide,
    (WriteConfig_open_fails (newCephConfig "/var/lib/ceph") sampleGo cephData 0o644 sampleFS
      (Or.inl (by decide))).1,
    by decide, by decide, by decide,
    (WriteConfig_open_fails (newRadosGWConfig "/etc/ceph") sampleGo (gatewayData 80 none none) 0o644
      readOnlyDirFS (Or.inr ⟨0o555, by decide, by decide, by decide⟩)).1⟩

/-- `WriteConfig` returns no error exactly when the file was opened and the
execution of the template did not fail. -/
theorem WriteConfig_nil_iff (c : Config) (go : GoRelease) (data : Bag) (mode : Int) (fs : os.FS) :
    (c.WriteConfig go data mode fs).1 = none
      ↔ (∃ r, os.OpenFile fs c.GetPath (os.O_CREATE ||| os.O_TRUNC ||| os.O_RDWR)
            (os.FileMode mode) = .ok r)
        ∧ (c.configTemplate.Execute data).err = none := by
  constructor
  · intro h
    obtain ⟨r, hr⟩ := WriteConfig_nil_opened c go data mode fs h
    refine ⟨⟨r, hr⟩, ?_⟩
    rw [(WriteConfig_open_ok c go data mode fs r hr).1] at h
    cases he : (c.configTemplate.Execute data).err with
    | none => rfl
    | some e => rw [he] at h; cases h
  · rintro ⟨⟨r, hr⟩, he⟩
    rw [(WriteConfig_open_ok c go data mode fs r hr).1, he]
    rfl

/-- C8: every error `WriteConfig` returns wraps a cause and has the message
`Couldn't write <configFile>: <cause>` or `Couldn't render <configFile>:
<cause>`; when opening fails with cause `e` it is the first, wrapping `e`;
when the execution of the template fails with cause `e` it is the second,
wrapping `e`; the two messages are never equal; and `WriteConfig` returns
nil exactly when the open and the execution both succeed. -/
theorem WriteConfig_errors (c : Config) (go : GoRelease) (data : Bag) (mode : Int) (fs : os.FS) :
    (∀ err, (c.WriteConfig go data mode fs).1 = some err →
        ∃ cause, err.Unwrap = some cause
          ∧ (err.Error = "Couldn't write " ++ c.configFile ++ ": " ++ cause.Error
            ∨ err.Error = "Couldn't render " ++ c.configFile ++ ": " ++ cause.Error))
    ∧ (∀ e, os.OpenFile fs c.GetPath (os.O_CREATE ||| os.O_TRUNC ||| os.O_RDWR)
          (os.FileMode mode) = .error e →
        ∃ err, (c.WriteConfig go data mode fs).1 = some err
          ∧ err.Error = "Couldn't write " ++ c.configFile ++ ": " ++ e.Error
          ∧ err.Unwrap = some e)
    ∧ (∀ r e, os.OpenFile fs c.GetPath (os.O_CREATE ||| os.O_TRUNC ||| os.O_RDWR)
          (os.FileMode mode) = .ok r →
        (c.configTemplate.Execute data).err = some e →
        ∃ err, (c.WriteConfig go data mode fs).1 = some err
          ∧ err.Error = "Couldn't render " ++ c.configFile ++ ": "
              ++ (c.configTemplate.execError go e).Error
          ∧ err.Unwrap = some (c.configTemplate.execError go e))
    ∧ (∀ x y : String, "Couldn't write " ++ c.configFile ++ ": " ++ x
        ≠ "Couldn't render " ++ c.configFile ++ ": " ++ y)
    ∧ ((c.WriteConfig go data mode fs).1 = none
        ↔ (∃ r, os.OpenFile fs c.GetPath (os.O_CREATE ||| os.O_TRUNC ||| os.O_RDWR)
              (os.FileMode mode) = .ok r)
          ∧ (c.configTemplate.Execute data).err = none) := by
  refine ⟨?_, ?_, ?_, ?_, WriteConfig_nil_iff c go data mode fs⟩
  · intro err herr
    cases hopen : os.OpenFile fs c.GetPath (os.O_CREATE ||| os.O_TRUNC ||| os.O_RDWR)
        (os.FileMode mode) with
    | error e =>
      rw [WriteConfig_open_error c go data mode fs e hopen, Errorf_write] at herr
      cases herr
      exact ⟨e, rfl, Or.inl rfl⟩
    | ok r =>
      rw [(WriteConfig_open_ok c go data mode fs r hopen).1] at herr
      cases he : (c.configTemplate.Execute data).err with
      | none => rw [he] at herr; cases herr
      | some e =>
        rw [he] at herr
        simp only [Option.map, Errorf_render] at herr
        cases herr
        exact ⟨_, rfl, Or.inr rfl⟩
  · intro e he
    refine ⟨_, by rw [WriteConfig_open_error c go data mode fs e he], ?_, ?_⟩
    · rw [Errorf_write]; rfl
    · rw [Errorf_write]; rfl
  · intro r e hr he
    refine ⟨fmt.Errorf "Couldn't render %s: %w" c.configFile (c.configTemplate.execError go e),
      ?_, ?_, ?_⟩
    · rw [(WriteConfig_open_ok c go data mode fs r hr).1, he]
      rfl
    · rw [Errorf_render]; rfl
    · rw [Errorf_render]; rfl
  · intro x y
    rw [String.append_assoc, String.append_assoc, String.append_assoc, String.append_assoc]
    exact write_ne_render _ _

/-- The gateway template fails at `ne .rgwPort 0` when `rgwPort` is a string
or a boolean; what was written before stays written. -/
theorem radosgw_execute_bad (configDir : String) (data : Bag) (v : Value)
    (hport : data "rgwPort" = some v)
    (hbad : (∃ s, v = .str s) ∨ (∃ b, v = .bool b)) :
    (newRadosGWConfig configDir).configTemplate.Execute data
      = ⟨["# Generated by MicroCeph, DO NOT EDIT.\n[global]\nmon host = ",
          printValue (evalField data "monitors"), "\nrun dir = ",
          printValue (evalField data "runDir"),
          "\nauth allow insecure global id reclaim = false\n\n[client.radosgw.gateway]\n"
            ++ "rgw init timeout = 1200\nrgw frontends = beast"],
        some ⟨221, "ne .rgwPort 0", .badComparison .ne v (.int 0)⟩⟩ := by
  have hf : evalField data "rgwPort" = v := by simp [evalField, hport]
  have hctx : cmdString [.ident 221 .ne, .field 224 "rgwPort", .number 233 0]
      = "ne .rgwPort 0" := by
    rfl
  have hcmd : evalCommand data
      [.ident 217 .or,
       .pipe 220 [.ident 221 .ne, .field 224 "rgwPort", .number 233 0],
       .pipe 236 [.ident 237 .not, .field 241 "sslCertificatePath"],
       .pipe 262 [.ident 263 .not, .field 267 "sslPrivateKeyPath"]]
      = .error ⟨221, "ne .rgwPort 0", .badComparison .ne v (.int 0)⟩ := by
    rcases hbad with ⟨s, rfl⟩ | ⟨b, rfl⟩ <;>
      simp [evalCommand, evalCall, evalAndOr, evalArg, hf, template.ne, template.eq, hctx]
  simp only [newRadosGWConfig, radosgwConfig_parse, template.Must, Template.Execute,
    radosgwConfigRoot, walkList_text, walkList_field, walkList_if_error _ _ _ _ _ _ hcmd,
    List.nil_append, List.cons_append]

/-- A directory that permits the creation of files permits lookup. -/
theorem mayCreate_maySearch (fs : os.FS) (perm : Nat) (h : fs.mayCreate perm = true) :
    fs.maySearch perm = true := by
  unfold os.FS.mayCreate at h
  unfold os.FS.maySearch
  cases hp : fs.privileged with
  | true => rfl
  | false =>
    rw [hp] at h
    simp only [Bool.false_or, beq_iff_eq] at h ⊢
    have h1 : perm &&& 0o300 &&& 0o100 = perm &&& 0o100 := by
      rw [Nat.land_assoc]
      rfl
    rw [← h1, h]
    rfl

/-- Opening a file for writing, creating it when it is missing, succeeds
when its directory permits the creation of files and the file is not there
yet or may be read and written. -/
theorem OpenFile_writable (fs : os.FS) (name : String) (perm dperm : Nat)
    (hname : name ≠ "")
    (hdir : fs.nodes (filepath.Dir name) = some (.dir dperm))
    (hcreate : fs.mayCreate dperm = true)
    (hfile : fs.nodes name = none
      ∨ ∃ fperm content, fs.nodes name = some (.file fperm content)
          ∧ fs.mayReadWrite fperm = true) :
    ∃ r, os.OpenFile fs name (os.O_CREATE ||| os.O_TRUNC ||| os.O_RDWR) perm = .ok r := by
  have hn : (name == "") = false := by simpa using hname
  have hsearch := mayCreate_maySearch fs dperm hcreate
  have hc : ((os.O_CREATE ||| os.O_TRUNC ||| os.O_RDWR) &&& os.O_CREATE == 0) = false := by
    decide
  have ht : ((os.O_CREATE ||| os.O_TRUNC ||| os.O_RDWR) &&& os.O_TRUNC != 0) = true := by
    decide
  cases hopen : os.OpenFile fs name (os.O_CREATE ||| os.O_TRUNC ||| os.O_RDWR) perm with
  | ok r => exact ⟨r, rfl⟩
  | error e =>
    rcases hfile with hnone | ⟨fperm, content, hsome, hrw⟩
    · simp [os.OpenFile, hn, hdir, hsearch, hnone, hc, hcreate] at hopen
    · simp [os.OpenFile, hn, hdir, hsearch, hsome, hrw, ht] at hopen

/-- C9, as stated, fails: `/etc/ceph` permits the caller to create files,
and `rgwPort` is the string `80`, which `ne` cannot compare with 0; yet
`WriteConfig` returns the open error, not the render error, because the
`radosgw.conf` that is already there may not be written by the caller. -/
theorem radosgw_open_error_in_writable_directory :
    (newRadosGWConfig "/etc/ceph").GetPath = "/etc/ceph/radosgw.conf"
    ∧ lockedFileFS.nodes (filepath.Dir (newRadosGWConfig "/etc/ceph").GetPath)
        = some (.dir 0o755)
    ∧ lockedFileFS.mayCreate 0o755 = true
    ∧ lockedFileFS.nodes "/etc/ceph/radosgw.conf" = some (.file 0o400 "# old content\n")
    ∧ lockedFileFS.mayReadWrite 0o400 = false
    ∧ badPortData "rgwPort" = some (.str "80")
    ∧ template.ne (.str "80") (.int 0) = .error (.errBadComparison (.str "80") (.int 0))
    ∧ ((newRadosGWConfig "/etc/ceph").WriteConfig sampleGo badPortData 0o644 lockedFileFS).1
      = some (.wrapError
          "Couldn't write radosgw.conf: open /etc/ceph/radosgw.conf: permission denied"
          (.pathError "open" "/etc/ceph/radosgw.conf" .EACCES))
    ∧ ((newRadosGWConfig "/etc/ceph").WriteConfig sampleGo badPortData 0o644
        lockedFileFS).2.content "/etc/ceph/radosgw.conf" = some "# old content\n" := by
  have hopen : os.OpenFile lockedFileFS (newRadosGWConfig "/etc/ceph").GetPath
      (os.O_CREATE ||| os.O_TRUNC ||| os.O_RDWR) (os.FileMode 0o644)
      = .error (.pathError "open" "/etc/ceph/radosgw.conf" .EACCES) := by
    rfl
  have hw := WriteConfig_open_error (newRadosGWConfig "/etc/ceph") sampleGo badPortData 0o644
    lockedFileFS _ hopen
  refine ⟨by decide, by decide, by decide, by decide, by decide, by decide, rfl, ?_, ?_⟩
  · rw [hw]
    decide
  · rw [hw]
    decide

/-- C9, amended: for every Go release and every data bag of the gateway
config in which `rgwPort` is a string or a boolean, values that `ne` cannot
compare with the integer 0, the test `ne .rgwPort 0` fails and with it the
execution of the template; and in every file system in which the directory
of `GetPath()` permits the creation of files and `GetPath()` is not there
yet or is a file the caller may read and write, the file is opened and
`WriteConfig` returns the render error, whose message is
`Couldn't render radosgw.conf: ` and the message of the error of the
execution, which it wraps: neither nil nor an open error. -/
theorem radosgw_incomparable_port (go : GoRelease) (configDir : String) (data : Bag)
    (mode : Int) (fs : os.FS) (v : Value) (dperm : Nat)
    (hport : data "rgwPort" = some v)
    (hbad : (∃ s, v = .str s) ∨ (∃ b, v = .bool b))
    (hdir : fs.nodes (filepath.Dir (newRadosGWConfig configDir).GetPath) = some (.dir dperm))
    (hcreate : fs.mayCreate dperm = true)
    (hfile : fs.nodes (newRadosGWConfig configDir).GetPath = none
      ∨ ∃ fperm content,
          fs.nodes (newRadosGWConfig configDir).GetPath = some (.file fperm content)
          ∧ fs.mayReadWrite fperm = true) :
    template.ne v (.int 0) = .error (.errBadComparison v (.int 0))
    ∧ ((newRadosGWConfig configDir).configTemplate.Execute data).err
        = some ⟨221, "ne .rgwPort 0", .badComparison .ne v (.int 0)⟩
    ∧ (∃ r, os.OpenFile fs (newRadosGWConfig configDir).GetPath
        (os.O_CREATE ||| os.O_TRUNC ||| os.O_RDWR) (os.FileMode mode) = .ok r)
    ∧ ((newRadosGWConfig configDir).WriteConfig go data mode fs).1
        = some (.wrapError
            ("Couldn't render radosgw.conf: "
              ++ ((newRadosGWConfig configDir).configTemplate.execError go
                  ⟨221, "ne .rgwPort 0", .badComparison .ne v (.int 0)⟩).Error)
            ((newRadosGWConfig configDir).configTemplate.execError go
              ⟨221, "ne .rgwPort 0", .badComparison .ne v (.int 0)⟩))
    ∧ ((newRadosGWConfig configDir).WriteConfig go data mode fs).1 ≠ none
    ∧ (∀ e : GoError, ((newRadosGWConfig configDir).WriteConfig go data mode fs).1
        ≠ some (fmt.Errorf "Couldn't write %s: %w" (newRadosGWConfig configDir).configFile e))
    ∧ (configDir ≠ "" →
        filepath.Dir (newRadosGWConfig configDir).GetPath = filepath.Clean configDir) := by
  have hname : (newRadosGWConfig configDir).GetPath ≠ "" :=
    Join_ne_empty configDir "radosgw.conf" (by decide)
  obtain ⟨r, hopen⟩ := OpenFile_writable fs _ (os.FileMode mode) dperm hname hdir hcreate hfile
  have hw : ((newRadosGWConfig configDir).WriteConfig go data mode fs).1
      = some (.wrapError
          ("Couldn't render radosgw.conf: "
            ++ ((newRadosGWConfig configDir).configTemplate.execError go
                ⟨221, "ne .rgwPort 0", .badComparison .ne v (.int 0)⟩).Error)
          ((newRadosGWConfig configDir).configTemplate.execError go
            ⟨221, "ne .rgwPort 0", .badComparison .ne v (.int 0)⟩)) := by
    rw [(WriteConfig_open_ok _ go data mode fs r hopen).1,
      radosgw_execute_bad configDir data v hport hbad]
    simp only [Option.map]
    rw [Errorf_render]
    rfl
  refine ⟨?_, by rw [radosgw_execute_bad configDir data v hport hbad], ⟨r, hopen⟩, hw, ?_, ?_, ?_⟩
  · rcases hbad with ⟨s, rfl⟩ | ⟨b, rfl⟩ <;> rfl
  · rw [hw]
    exact Option.some_ne_none _
  · intro e h
    rw [hw, Errorf_write] at h
    injection h with h
    injection h with hmsg _
    have hcf : (newRadosGWConfig configDir).configFile = "radosgw.conf" := rfl
    rw [hcf, String.append_assoc, String.append_assoc] at hmsg
    have hl : ("Couldn't render radosgw.conf: " : String)
        = "Couldn't render " ++ ("radosgw.conf" ++ ": ") := by
      decide
    rw [hl, String.append_assoc, String.append_assoc] at hmsg
    exact write_ne_render _ _ hmsg.symm
  · intro hne
    exact Dir_Join configDir "radosgw.conf" hne (by decide)

/-- Opening the keyring file in the sample file system creates it. -/
theorem sampleFS_open_keyring (mode : Int) :
    ∃ r, os.OpenFile sampleFS (newCephKeyring "/etc/ceph" "keyring").GetPath
      (os.O_CREATE ||| os.O_TRUNC ||| os.O_RDWR) (os.FileMode mode) = .ok r :=
  ⟨_, rfl⟩

/-- Writing a keyring into the sample file system succeeds. -/
theorem sampleFS_write_keyring (name key : String) (mode : Int) :
    ((newCephKeyring "/etc/ceph" "keyring").WriteConfig sampleGo (keyringData name key) mode
      sampleFS).1 = none := by
  rw [WriteConfig_nil_iff]
  refine ⟨sampleFS_open_keyring mode, ?_⟩
  rw [keyring_execute "/etc/ceph" "keyring" name key _ (by simp [keyringData, Bag.set])
    (by simp [keyringData, Bag.set])]

/-- The keyring of the specification written into an empty directory: the
file holds the three lines, the directory is as before. -/
theorem WriteConfig_writes_rendering_witness :
    ((newCephKeyring "/etc/ceph" "keyring").WriteConfig sampleGo (keyringData "client.admin" "AQA==")
      0o600 sampleFS).1 = none
    ∧ ((newCephKeyring "/etc/ceph" "keyring").WriteConfig sampleGo (keyringData "client.admin" "AQA==")
        0o600 sampleFS).2.content (newCephKeyring "/etc/ceph" "keyring").GetPath
      = some ((newCephKeyring "/etc/ceph" "keyring").render (keyringData "client.admin" "AQA=="))
    ∧ (newCephKeyring "/etc/ceph" "keyring").GetPath = "/etc/ceph/keyring"
    ∧ (newCephKeyring "/etc/ceph" "keyring").render (keyringData "client.admin" "AQA==")
      = "# Generated by MicroCeph, DO NOT EDIT.\n[client.admin]\n\tkey = AQA==\n" :=
  ⟨sampleFS_write_keyring _ _ _,
    (WriteConfig_writes_rendering (newCephKeyring "/etc/ceph" "keyring") sampleGo
      (keyringData "client.admin" "AQA==") 0o600 sampleFS (sampleFS_write_keyring _ _ _)).1,
    by decide,
    by
      simp only [Config.render, keyring_execute "/etc/ceph" "keyring" "client.admin" "AQA=="
        (keyringData "client.admin" "AQA==") (by decide) (by decide)]
      decide⟩

/-- A long keyring, then the keyring of the specification, written to the
same file: the file holds the short one alone. -/
theorem WriteConfig_twice_witness :
    ((newCephKeyring "/etc/ceph" "keyring").WriteConfig sampleGo
      (keyringData "client.bootstrap-osd" "AQBx3kJlAAAAABAAmZDvd1vfP0t2YvBcmjOQnA==") 0o600
      sampleFS).1 = none
    ∧ ((newCephKeyring "/etc/ceph" "keyring").WriteConfig sampleGo (keyringData "client.admin" "AQA==")
        0o600 ((newCephKeyring "/etc/ceph" "keyring").WriteConfig sampleGo
          (keyringData "client.bootstrap-osd" "AQBx3kJlAAAAABAAmZDvd1vfP0t2YvBcmjOQnA==") 0o600
          sampleFS).2).1 = none
    ∧ ((newCephKeyring "/etc/ceph" "keyring").render (keyringData "client.admin" "AQA==")).length
        < ((newCephKeyring "/etc/ceph" "keyring").render
            (keyringData "client.bootstrap-osd"
              "AQBx3kJlAAAAABAAmZDvd1vfP0t2YvBcmjOQnA==")).length
    ∧ ((newCephKeyring "/etc/ceph" "keyring").WriteConfig sampleGo (keyringData "client.admin" "AQA==")
        0o600 ((newCephKeyring "/etc/ceph" "keyring").WriteConfig sampleGo
          (keyringData "client.bootstrap-osd" "AQBx3kJlAAAAABAAmZDvd1vfP0t2YvBcmjOQnA==") 0o600
          sampleFS).2).2.content (newCephKeyring "/etc/ceph" "keyring").GetPath
      = some "# Generated by MicroCeph, DO NOT EDIT.\n[client.admin]\n\tkey = AQA==\n" :=
  ⟨by decide, by decide, by decide,
    (WriteConfig_twice (newCephKeyring "/etc/ceph" "keyring") sampleGo
      (keyringData "client.bootstrap-osd" "AQBx3kJlAAAAABAAmZDvd1vfP0t2YvBcmjOQnA==")
      (keyringData "client.admin" "AQA==") 0o600 0o600 sampleFS (by decide)
      (by decide)).2.1.trans (by decide)⟩

/-- A missing directory: the open error names the file and wraps the error
of `open`. -/
theorem WriteConfig_errors_witness :
    os.OpenFile sampleFS (newCephConfig "/var/lib/ceph").GetPath
        (os.O_CREATE ||| os.O_TRUNC ||| os.O_RDWR) (os.FileMode 0o644)
      = .error (.pathError "open" "/var/lib/ceph/ceph.conf" .ENOENT)
    ∧ (GoError.pathError "open" "/var/lib/ceph/ceph.conf" .ENOENT).Error
      = "open /var/lib/ceph/ceph.conf: no such file or directory"
    ∧ ∃ err, ((newCephConfig "/var/lib/ceph").WriteConfig sampleGo cephData 0o644 sampleFS).1 = some err
        ∧ err.Error = "Couldn't write " ++ (newCephConfig "/var/lib/ceph").configFile ++ ": "
            ++ (GoError.pathError "open" "/var/lib/ceph/ceph.conf" .ENOENT).Error
        ∧ err.Unwrap = some (.pathError "open" "/var/lib/ceph/ceph.conf" .ENOENT) :=
  ⟨rfl, by decide,
    (WriteConfig_errors (newCephConfig "/var/lib/ceph") sampleGo cephData 0o644 sampleFS).2.1 _ rfl⟩

/-- The port given as the string `80`, written into an empty and writable
`/etc/ceph`: the render error, whatever the text of the comparison error. -/
theorem radosgw_incomparable_port_witness :
    badPortData "rgwPort" = some (.str "80")
    ∧ sampleFS.nodes (filepath.Dir (newRadosGWConfig "/etc/ceph").GetPath) = some (.dir 0o755)
    ∧ sampleFS.mayCreate 0o755 = true
    ∧ sampleFS.nodes (newRadosGWConfig "/etc/ceph").GetPath = none
    ∧ ((newRadosGWConfig "/etc/ceph").configTemplate.Execute badPortData).err
        = some ⟨221, "ne .rgwPort 0", .badComparison .ne (.str "80") (.int 0)⟩
    ∧ ((newRadosGWConfig "/etc/ceph").WriteConfig sampleGo badPortData 0o644 sampleFS).1
        = some (.wrapError
            ("Couldn't render radosgw.conf: "
              ++ ((newRadosGWConfig "/etc/ceph").configTemplate.execError sampleGo
                  ⟨221, "ne .rgwPort 0", .badComparison .ne (.str "80") (.int 0)⟩).Error)
            ((newRadosGWConfig "/etc/ceph").configTemplate.execError sampleGo
              ⟨221, "ne .rgwPort 0", .badComparison .ne (.str "80") (.int 0)⟩)) :=
  ⟨by decide, by decide, by decide, by decide,
    (radosgw_incomparable_port sampleGo "/etc/ceph" badPortData 0o644 sampleFS (.str "80")
      0o755 (by decide) (Or.inl ⟨"80", rfl⟩) (by decide) (by decide)
      (Or.inl (by decide))).2.1,
    (radosgw_incomparable_port sampleGo "/etc/ceph" badPortData 0o644 sampleFS (.str "80")
      0o755 (by decide) (Or.inl ⟨"80", rfl⟩) (by decide) (by decide)
      (Or.inl (by decide))).2.2.2.1⟩

end MicroCeph
